import Mathlib

/-!
Verification of the avalanche-ops orchestrator and agent against its
natural-language specification.  The Rust sources are shallowly embedded:
pure functions become Lean functions, stateful control flow becomes explicit
state passing over explicit environments (file system, AWS responses),
machine integers become Nat (all counts involved are small and unsigned, no
overflow is reachable), and fallible code returns Except / explicit outcome
types.  Panics (Rust unwrap / slice-index underflow) are modelled as a
distinguished outcome constructor where a claim depends on them.
-/

namespace Network

/-- From src/src/network.rs: artifact paths shared with remote machines. -/
structure InstallArtifacts where
  genesis_file : String
  avalanched_bin : String
  avalanchego_bin : String
  plugins_dir : Option String
deriving Repr, DecidableEq

/-- From src/src/network.rs: machine topology. -/
structure Machine where
  beacon_nodes : Option Nat
  non_beacon_nodes : Nat
  instance_types : Option (List String)
deriving Repr, DecidableEq

/-- From src/src/network.rs: the AWS resource record; only the field read by
Config::validate (region) is carried, the remaining read-only provisioning
fields are not read by validate. -/
structure AWSResources where
  region : String
  bucket : String
deriving Repr, DecidableEq

/-- From src/src/network.rs: network-level configuration (struct Config). -/
structure Config where
  id : String
  network_id : String
  snow_sample_size : Option Nat
  snow_quorum_size : Option Nat
  http_port : Option Nat
  staking_port : Option Nat
  install_artifacts : InstallArtifacts
  machine : Machine
  aws_resources : Option AWSResources
deriving Repr, DecidableEq

/-- MIN_MACHINE_BEACON_NODES in src/src/network.rs. -/
def MIN_MACHINE_BEACON_NODES : Nat := 1

/-- MAX_MACHINE_BEACON_NODES in src/src/network.rs. -/
def MAX_MACHINE_BEACON_NODES : Nat := 10

/-- MIN_MACHINE_NON_BEACON_NODES in src/src/network.rs. -/
def MIN_MACHINE_NON_BEACON_NODES : Nat := 1

/-- MAX_MACHINE_NON_BEACON_NODES in src/src/network.rs. -/
def MAX_MACHINE_NON_BEACON_NODES : Nat := 20

/-- Config::is_mainnet in src/src/network.rs. -/
def Config.is_mainnet (c : Config) : Bool :=
  c.network_id = "mainnet"

/-- The trailing non-beacon-node range checks of Config::validate
(src/src/network.rs lines 466-485). -/
def Config.nonBeaconChecks (c : Config) : Except String Unit :=
  if c.machine.non_beacon_nodes < MIN_MACHINE_NON_BEACON_NODES then
    .error "machine.non_beacon_nodes below minimum"
  else if c.machine.non_beacon_nodes > MAX_MACHINE_NON_BEACON_NODES then
    .error "machine.non_beacon_nodes above maximum"
  else .ok ()

/-- The reserved known-network names that Config::validate rejects outright
("cascade" | "denali" | "everest" | "fuji" | "testnet" | "testing" | "local"
in the Rust match). -/
def reservedNetwork (s : String) : Prop :=
  s = "cascade" ∨ s = "denali" ∨ s = "everest" ∨ s = "fuji" ∨
    s = "testnet" ∨ s = "testing" ∨ s = "local"

instance (s : String) : Decidable (reservedNetwork s) := by
  unfold reservedNetwork; infer_instance

/-- The network-specific validations of Config::validate
(src/src/network.rs lines 417-485): the Rust match over network_id as an
if-chain with the same cases, followed by the non-beacon range checks. -/
def Config.networkChecks (c : Config) : Except String Unit :=
  if c.network_id = "mainnet" then
    if c.machine.beacon_nodes.getD 0 > 0 then
      .error "cannot specify non-zero machine.beacon_nodes for mainnet"
    else c.nonBeaconChecks
  else if reservedNetwork c.network_id then
    .error "network is not supported yet in this tooling"
  else
    if c.machine.beacon_nodes.getD 0 = 0 then
      .error "cannot specify 0 for machine.beacon_nodes for custom network"
    else if c.machine.beacon_nodes.getD 0 < MIN_MACHINE_BEACON_NODES then
      .error "machine.beacon_nodes below min"
    else if c.machine.beacon_nodes.getD 0 > MAX_MACHINE_BEACON_NODES then
      .error "machine.beacon_nodes exceeds limit"
    else c.nonBeaconChecks

/-- Config::validate in src/src/network.rs lines 352-486, embedded over an
explicit file-system abstraction: pathExists models Path::new(p).exists().
The sequence of early-return checks is reproduced in source order. -/
def Config.validate (pathExists : String → Bool) (c : Config) : Except String Unit :=
  if c.id = "" then .error "id cannot be empty"
  else if pathExists c.install_artifacts.genesis_file = false then
    .error "genesis_file does not exist"
  else if pathExists c.install_artifacts.avalanched_bin = false then
    .error "avalanched_bin does not exist"
  else if pathExists c.install_artifacts.avalanchego_bin = false then
    .error "avalanchego_bin does not exist"
  else if (match c.install_artifacts.plugins_dir with
      | some d => !(pathExists d)
      | none => false) then
    .error "plugins_dir does not exist"
  else if c.network_id = "" then .error "network_id cannot be empty"
  else if (match c.aws_resources with
      | some v => v.region == ""
      | none => false : Bool) then
    .error "machine.region cannot be empty"
  else c.networkChecks

/-- A file system on which every path exists (used for concrete witnesses). -/
def fsAll : String → Bool := fun _ => true

/-- A fully well-formed custom-network Spec except that its network name is
the reserved name "fuji": every other validation condition holds and its
anchor-node count 3 lies in the range 1..10. -/
def cfgFuji : Config :=
  { id := "a", network_id := "fuji",
    snow_sample_size := some 20, snow_quorum_size := some 15,
    http_port := some 9650, staking_port := some 9651,
    install_artifacts :=
      { genesis_file := "g", avalanched_bin := "d", avalanchego_bin := "b",
        plugins_dir := none },
    machine := { beacon_nodes := some 3, non_beacon_nodes := 2,
                 instance_types := none },
    aws_resources := none }

end Network

namespace Avalanchego

/-- From src/src/avalanchego.rs struct Config: the fields read by validate
and is_mainnet (genesis, network-id, staking flags); the many remaining
pass-through node flags are not read by either function and are omitted. -/
structure Config where
  config_file : Option String
  genesis : Option String
  network_id : Option Nat
  staking_enabled : Option Bool
  staking_tls_key_file : Option String
  staking_tls_cert_file : Option String
deriving Repr, DecidableEq

/-- Config::is_mainnet in src/src/avalanchego.rs lines 238-241:
network_id.is_none() || network_id.unwrap() == 1. -/
def Config.is_mainnet (c : Config) : Bool :=
  match c.network_id with
  | none => true
  | some v => v == 1

/-- The environment Config::validate reads: whether a path exists on disk
and, for an existing genesis file, the network_id recorded in it
(none models a Genesis::load failure, which the code unwraps). -/
structure Env where
  pathExists : String → Bool
  genesisLoad : String → Option Nat

/-- Outcome of a validation that can also panic (Rust unwrap). -/
inductive VOutcome where
  | ok
  | err (msg : String)
  | panicked
deriving Repr, DecidableEq

/-- The trailing staking checks of Config::validate
(src/src/avalanchego.rs lines 366-385). -/
def Config.stakingChecks (c : Config) : VOutcome :=
  if (match c.staking_enabled with
      | some b => !b
      | none => false : Bool) then .err "staking-enabled must be true"
  else if c.staking_tls_cert_file.isNone then
    .err "staking-tls-cert-file not defined"
  else if c.staking_tls_key_file.isNone then
    .err "staking-tls-key-file not defined"
  else .ok

/-- Config::validate in src/src/avalanchego.rs lines 313-386, in source
order: genesis forbidden when network-id is unset; genesis required when
network-id is set; the genesis file must exist; the network id recorded in
the genesis file must equal the configured one (Genesis::load(..).unwrap()
and self.network_id.unwrap() panic when unavailable); then staking checks. -/
def Config.validate (env : Env) (c : Config) : VOutcome :=
  if c.network_id.isNone && c.genesis.isSome then
    .err "non-empty genesis but empty network-id"
  else if c.network_id.isSome && c.genesis.isNone then
    .err "non-empty network-id but empty genesis"
  else if (match c.genesis with
      | some p => !(env.pathExists p)
      | none => false : Bool) then
    .err "genesis file does not exist"
  else
    match c.genesis with
    | some p =>
      match env.genesisLoad p with
      | none => .panicked
      | some gid =>
        match c.network_id with
        | none => .panicked
        | some nid =>
          if gid ≠ nid then .err "genesis network ID mismatch"
          else c.stakingChecks
    | none => c.stakingChecks

/-- A Config with network_id 1 (the numeric mainnet id) and a genesis file:
is_mainnet is true for it, yet validate accepts it. -/
def cfgNet1 : Config :=
  { config_file := none, genesis := some "/etc/g.json", network_id := some 1,
    staking_enabled := some true, staking_tls_key_file := some "k",
    staking_tls_cert_file := some "c" }

/-- An environment where every path exists and every genesis file records
network id 1. -/
def env1 : Env :=
  { pathExists := fun _ => true, genesisLoad := fun _ => some 1 }

end Avalanchego

namespace Agent

/-- Outcome of one iteration of the agent steady-state loop: either the loop
body finished and the loop continues with the next period, or an unwrap
panicked and the process terminated. -/
inductive StepOutcome where
  | next
  | panicked
deriving Repr, DecidableEq

/-- One iteration of the steady-state loop of src/src/bin/avalanched-aws/main.rs
lines 354-381: after the periodic sleep, when node_type is "beacon" the agent
builds its BeaconNode record, syncs it to a temporary file
(beacon_node.sync(..).unwrap()) and uploads it to the readiness mailbox
(s3_manager.put_object(..) then .unwrap()).  sync_ok and upload_ok are the
results of those two fallible calls; each is consumed by unwrap, so a failure
panics.  For any other node_type the body does nothing. -/
def steadyStateStep (node_type : String) (sync_ok upload_ok : Bool) :
    StepOutcome :=
  if node_type = "beacon" then
    if !sync_ok then .panicked
    else if !upload_ok then .panicked
    else .next
  else .next

end Agent

namespace Health

/-- The per-node probe loop of src/src/bin/avalanche-ops-nodes-aws/main.rs
lines 1230-1255: for _ in 0..10 issue check_health_liveness; an Ok healthy
reply breaks out, anything else sleeps 10 seconds and retries.  resp i is
whether the i-th probe of this node reports healthy (the code maps an Err
reply to healthy = false).  Returns (success, probes issued, seconds slept);
fuel is the remaining iteration budget of the for loop. -/
def probeGo (resp : Nat → Bool) : Nat → Nat → Bool × Nat × Nat
  | 0, _ => (false, 0, 0)
  | fuel + 1, i =>
    if resp i then (true, 1, 0)
    else
      let r := probeGo resp fuel (i + 1)
      (r.1, r.2.1 + 1, r.2.2 + 10)

/-- The probe loop for one node, with the code's fixed budget of 10. -/
def checkNodeHealth (resp : Nat → Bool) : Bool × Nat × Nat :=
  probeGo resp 10 0

/-- The health-verification pass over all discovered nodes
(src/src/bin/avalanche-ops-nodes-aws/main.rs lines 1229-1262): nodes are
checked in order and the first node whose 10 probes all fail aborts
execute_apply with the fixed error. -/
def healthVerify : List (Nat → Bool) → Except String Unit
  | [] => .ok ()
  | r :: rest =>
    if (checkNodeHealth r).1 then healthVerify rest
    else .error "health/liveness check failed"

end Health

namespace Rendezvous

/-- An object key under the role-scoped ready mailbox, split into the
directory part produced by the naming scheme and the per-instance file name.
Modelled from the spec: the key layout is id/discover/ready/role/instance. -/
structure MarkerKey where
  dir : String
  name : String
deriving Repr, DecidableEq

/-- A node as recovered from a marker key; only the identity component
matters for the rendezvous count. -/
structure Node where
  machine_id : String
deriving Repr, DecidableEq

/-- Modelled from the spec: aws_s3::KeyPath::parse_node_from_s3_path is the
inverse of the naming scheme, recovering the Node from the instance part of
the marker key. -/
def parse_node_from_s3_path (k : MarkerKey) : Node :=
  ⟨k.name⟩

/-- The rendezvous wait loop of src/src/bin/avalanche-ops-nodes-aws/main.rs
lines 959-983 (and its non-beacon twin at lines 1162-1186): loop, sleep 30
seconds, list the objects under the ready dir, and break exactly when the
listed count reaches the target; afterwards each listed object is parsed
into a Node.  listings i is the S3 listing observed on iteration i; fuel
bounds how many iterations we observe (the code itself has no bound, so a
result of none over every fuel models divergence).  On success returns the
total seconds slept and the parsed nodes. -/
def awaitReadyGo (listings : Nat → List MarkerKey) (target : Nat) :
    Nat → Nat → Option (Nat × List Node)
  | 0, _ => none
  | fuel + 1, i =>
    let objs := listings i
    if target ≤ objs.length then
      some (30 * (i + 1), objs.map parse_node_from_s3_path)
    else awaitReadyGo listings target fuel (i + 1)

/-- The rendezvous wait started at iteration 0. -/
def await_ready (fuel : Nat) (listings : Nat → List MarkerKey)
    (target : Nat) : Option (Nat × List Node) :=
  awaitReadyGo listings target fuel 0

end Rendezvous

namespace Ops

/-- The machine block of avalanche_ops::Spec as read by
src/src/bin/avalanche-ops-nodes-aws/main.rs (desired anchor/beacon count,
desired non-anchor count, allowed instance types). -/
structure Machine where
  beacon_nodes : Option Nat
  non_beacon_nodes : Nat
  instance_types : Option (List String)
deriving Repr, DecidableEq

/-- The aws_resources record of avalanche_ops::Spec as read and written by
execute_apply / execute_delete in src/src/bin/avalanche-ops-nodes-aws/main.rs
(the struct declaration lives in the library crate outside src/; every field
here appears at its use sites in main.rs). -/
structure Resources where
  region : String
  s3_bucket : String
  s3_bucket_db_backup : Option String
  identity : Option String
  kms_cmk_id : Option String
  kms_cmk_arn : Option String
  ec2_key_name : Option String
  ec2_key_path : Option String
  cloudformation_ec2_instance_role : Option String
  cloudformation_ec2_instance_profile_arn : Option String
  cloudformation_vpc : Option String
  cloudformation_vpc_id : Option String
  cloudformation_vpc_security_group_id : Option String
  cloudformation_vpc_public_subnet_ids : Option (List String)
  cloudformation_asg_beacon_nodes : Option String
  cloudformation_asg_beacon_nodes_logical_id : Option String
  cloudformation_asg_non_beacon_nodes : Option String
  cloudformation_asg_non_beacon_nodes_logical_id : Option String
  cloudformation_asg_nlb_arn : Option String
  cloudformation_asg_nlb_target_group_arn : Option String
  cloudformation_asg_nlb_dns_name : Option String
deriving Repr, DecidableEq

/-- The part of avalanche_ops::Spec that execute_apply / execute_delete read
besides the resources record: the cluster id, the machine block, and whether
avalanchego_config.is_custom_network() holds (that method lives in the
library crate outside src/; modelled from the spec, a Spec is either the
reference mainnet network or a named custom network). -/
structure OpsSpec where
  id : String
  machine : Machine
  is_custom_network : Bool
deriving Repr, DecidableEq

/-- The cloudformation stacks execute_apply / execute_delete manage. -/
inductive StackKind where
  | ec2InstanceRole
  | vpc
  | asgBeaconNodes
  | asgNonBeaconNodes
deriving Repr, DecidableEq

/-- The terminal stack status a poll_stack call waits for. -/
inductive PollTarget where
  | createComplete
  | deleteComplete
deriving Repr, DecidableEq

/-- One AWS mutation / polling call issued by the orchestrator, as recorded
in the call trace of the models of execute_apply and execute_delete. -/
inductive AwsCall where
  | createKmsKey
  | createKeyPair
  | createStack (stack : StackKind)
  | pollStack (stack : StackKind) (target : PollTarget)
      (timeoutSecs intervalSecs : Nat)
  | deleteKeyPair
  | scheduleKmsKeyDelete
  | deleteStack (stack : StackKind)
  | deleteLogGroup (name : String)
  | deleteObjects (bucket : String)
  | deleteBucket (bucket : String)
deriving Repr, DecidableEq

/-- MAX_WAIT_SECONDS in src/src/bin/avalanche-ops-nodes-aws/main.rs line 319
(the 50-minute cap). -/
def MAX_WAIT_SECONDS : Nat := 50 * 60

/-- The ASG stack poll budget of main.rs lines 863-867, 1060-1063, 1475-1479
and 1504-1508: 300 seconds base plus 60 per desired instance, capped at
MAX_WAIT_SECONDS. -/
def waitSecs (desired : Nat) : Nat :=
  let w := 300 + 60 * desired
  if w > MAX_WAIT_SECONDS then MAX_WAIT_SECONDS else w

/-- State of the step pipeline: the resources record so far, the calls
issued so far, and whether execution continues (false after an early return
or a panic). -/
structure StepR where
  res : Resources
  calls : List AwsCall
  go : Bool

/-- Run a list of steps in order, stopping at the first one that halts
(models the sequential body of execute_apply / execute_delete, where any
error return or unwrap panic abandons the rest of the function). -/
def runSteps : StepR → List (Resources → StepR) → StepR
  | s, [] => s
  | s, f :: fs =>
    if s.go then
      let t := f s.res
      runSteps ⟨t.res, s.calls ++ t.calls, t.go⟩ fs
    else s

/-- The cloud responses one invocation of execute_apply observes: the caller
identity, the created KMS key, the local path the EC2 key is written to, and
the output maps of the four stacks (key/value pairs, scanned in order with
the last match winning, exactly like the for-loops over stack.outputs). -/
structure ApplyEnv where
  current_identity : String
  kms_key_id : String
  kms_key_arn : String
  created_key_path : String
  role_outputs : List (String × String)
  vpc_outputs : List (String × String)
  beacon_outputs : List (String × String)
  nonbeacon_outputs : List (String × String)

/-- The output-scan loops of execute_apply: for o in stack.outputs, when the
key matches, overwrite the field; otherwise keep the current value. -/
def scanOutputs (outs : List (String × String)) (key : String)
    (current : Option String) : Option String :=
  outs.foldl (fun acc kv => if kv.1 = key then some kv.2 else acc) current

/-- Modelled from the spec: StackName::Ec2InstanceRole(id).encode(), the
deterministic naming scheme (the StackName enum lives outside src/). -/
def ec2InstanceRoleStackName (id : String) : String :=
  id ++ "-ec2-instance-role"

/-- Modelled from the spec: StackName::Vpc(id).encode(). -/
def vpcStackName (id : String) : String :=
  id ++ "-vpc"

/-- Modelled from the spec: StackName::AsgBeaconNodes(id).encode(). -/
def asgBeaconNodesStackName (id : String) : String :=
  id ++ "-asg-beacon-nodes"

/-- Modelled from the spec: StackName::AsgNonBeaconNodes(id).encode(). -/
def asgNonBeaconNodesStackName (id : String) : String :=
  id ++ "-asg-non-beacon-nodes"

/-- main.rs lines 346-362: an identity recorded at a previous apply must
equal the current caller identity (else error out); a fresh record stores
the current identity. -/
def identityStep (env : ApplyEnv) (r : Resources) : StepR :=
  match r.identity with
  | some id => if id ≠ env.current_identity then ⟨r, [], false⟩ else ⟨r, [], true⟩
  | none => ⟨{ r with identity := some env.current_identity }, [], true⟩

/-- main.rs lines 364-387: fill the name fields (EC2 key name, stack names)
from the cluster id when still unset; the beacon ASG name only for a custom
network. -/
def defaultsStep (spec : OpsSpec) (r : Resources) : StepR :=
  let r1 := if r.ec2_key_name = none then
    { r with ec2_key_name := some (spec.id ++ "-ec2-key") } else r
  let r2 := if r1.cloudformation_ec2_instance_role = none then
    { r1 with
        cloudformation_ec2_instance_role :=
          some (ec2InstanceRoleStackName spec.id) } else r1
  let r3 := if r2.cloudformation_vpc = none then
    { r2 with cloudformation_vpc := some (vpcStackName spec.id) } else r2
  let r4 := if spec.is_custom_network ∧ r3.cloudformation_asg_beacon_nodes = none then
    { r3 with
        cloudformation_asg_beacon_nodes :=
          some (asgBeaconNodesStackName spec.id) } else r3
  let r5 := if r4.cloudformation_asg_non_beacon_nodes = none then
    { r4 with
        cloudformation_asg_non_beacon_nodes :=
          some (asgNonBeaconNodesStackName spec.id) } else r4
  ⟨r5, [], true⟩

/-- main.rs lines 525-549: create the KMS key only when both the id and the
arn fields are unset, then record both. -/
def kmsStep (env : ApplyEnv) (r : Resources) : StepR :=
  if r.kms_cmk_id = none ∧ r.kms_cmk_arn = none then
    ⟨{ r with
        kms_cmk_id := some env.kms_key_id,
        kms_cmk_arn := some env.kms_key_arn },
      [.createKmsKey], true⟩
  else ⟨r, [], true⟩

/-- main.rs lines 552-597: create the EC2 key pair only when ec2_key_path is
unset; the key name is unwrapped (a None panics). -/
def ec2KeyStep (env : ApplyEnv) (r : Resources) : StepR :=
  if r.ec2_key_path = none then
    match r.ec2_key_name with
    | none => ⟨r, [], false⟩
    | some _ =>
      ⟨{ r with ec2_key_path := some env.created_key_path },
        [.createKeyPair], true⟩
  else ⟨r, [], true⟩

/-- main.rs lines 599-672: create the instance-role stack only when the
profile arn is unset; the stack name and kms arn are unwrapped; the stack is
polled for CreateComplete with a 500-second timeout and 30-second interval;
the InstanceProfileArn output is scanned into the field. -/
def roleStep (env : ApplyEnv) (r : Resources) : StepR :=
  if r.cloudformation_ec2_instance_profile_arn = none then
    match r.cloudformation_ec2_instance_role, r.kms_cmk_arn with
    | some _, some _ =>
      ⟨{ r with
          cloudformation_ec2_instance_profile_arn :=
            scanOutputs env.role_outputs "InstanceProfileArn"
              r.cloudformation_ec2_instance_profile_arn },
        [.createStack .ec2InstanceRole,
         .pollStack .ec2InstanceRole .createComplete 500 30], true⟩
    | _, _ => ⟨r, [], false⟩
  else ⟨r, [], true⟩

/-- main.rs lines 674-762: create the VPC stack only when the VPC id, the
security-group id and the public-subnet list are all unset; poll 300
seconds; scan VpcId, SecurityGroupId and the comma-split PublicSubnetIds
into the fields. -/
def vpcStep (env : ApplyEnv) (r : Resources) : StepR :=
  if r.cloudformation_vpc_id = none ∧
      r.cloudformation_vpc_security_group_id = none ∧
      r.cloudformation_vpc_public_subnet_ids = none then
    match r.cloudformation_vpc with
    | none => ⟨r, [], false⟩
    | some _ =>
      ⟨{ r with
          cloudformation_vpc_id :=
            scanOutputs env.vpc_outputs "VpcId" r.cloudformation_vpc_id,
          cloudformation_vpc_security_group_id :=
            scanOutputs env.vpc_outputs "SecurityGroupId"
              r.cloudformation_vpc_security_group_id,
          cloudformation_vpc_public_subnet_ids :=
            (scanOutputs env.vpc_outputs "PublicSubnetIds" none).map
              (fun v => v.splitOn ",") },
        [.createStack .vpc, .pollStack .vpc .createComplete 300 30], true⟩
  else ⟨r, [], true⟩

/-- main.rs lines 764-815: the shared ASG parameter block unwraps the KMS
arn, EC2 key name, instance profile arn, subnet ids, security-group id and
VPC id before either ASG step runs; a None in any of them panics. -/
def asgParamsStep (r : Resources) : StepR :=
  if r.kms_cmk_arn.isSome && r.ec2_key_name.isSome &&
      r.cloudformation_ec2_instance_profile_arn.isSome &&
      r.cloudformation_vpc_public_subnet_ids.isSome &&
      r.cloudformation_vpc_security_group_id.isSome &&
      r.cloudformation_vpc_id.isSome then
    ⟨r, [], true⟩
  else ⟨r, [], false⟩

/-- main.rs lines 817-998: create the beacon-node ASG stack only when the
machine wants beacon nodes and the ASG logical id is unset; the stack name
is unwrapped; the poll timeout is waitSecs of the desired beacon count; the
AsgLogicalId and the three NLB outputs are scanned into the fields, and a
missing AsgLogicalId / NlbArn / NlbTargetGroupArn / NlbDnsName is an error
return.  (The subsequent rendezvous wait is modelled separately.) -/
def beaconUpdated (env : ApplyEnv) (r : Resources) : Resources :=
  { r with
    cloudformation_asg_beacon_nodes_logical_id :=
      scanOutputs env.beacon_outputs "AsgLogicalId"
        r.cloudformation_asg_beacon_nodes_logical_id,
    cloudformation_asg_nlb_arn :=
      scanOutputs env.beacon_outputs "NlbArn" r.cloudformation_asg_nlb_arn,
    cloudformation_asg_nlb_target_group_arn :=
      scanOutputs env.beacon_outputs "NlbTargetGroupArn"
        r.cloudformation_asg_nlb_target_group_arn,
    cloudformation_asg_nlb_dns_name :=
      scanOutputs env.beacon_outputs "NlbDnsName"
        r.cloudformation_asg_nlb_dns_name }

def beaconStep (env : ApplyEnv) (spec : OpsSpec) (r : Resources) : StepR :=
  if spec.machine.beacon_nodes.getD 0 > 0 ∧
      r.cloudformation_asg_beacon_nodes_logical_id = none then
    match r.cloudformation_asg_beacon_nodes with
    | none => ⟨r, [], false⟩
    | some _ =>
      let desired := spec.machine.beacon_nodes.getD 0
      let r' := beaconUpdated env r
      let calls : List AwsCall := [.createStack .asgBeaconNodes,
        .pollStack .asgBeaconNodes .createComplete (waitSecs desired) 30]
      if r'.cloudformation_asg_beacon_nodes_logical_id = none ∨
          r'.cloudformation_asg_nlb_arn = none ∨
          r'.cloudformation_asg_nlb_target_group_arn = none ∨
          r'.cloudformation_asg_nlb_dns_name = none then
        ⟨r', calls, false⟩
      else ⟨r', calls, true⟩
  else ⟨r, [], true⟩

/-- main.rs lines 1000-1201: create the non-beacon ASG stack only when its
ASG logical id is unset; the stack name is unwrapped; the poll timeout is
waitSecs of the desired non-beacon count; the NLB outputs are scanned only
when no NLB target group exists yet (need_to_create_nlb), and the missing
output checks mirror the source.  (The rendezvous wait is modelled
separately.) -/
def nonBeaconUpdated (env : ApplyEnv) (needNlb : Bool) (r : Resources) :
    Resources :=
  { r with
    cloudformation_asg_non_beacon_nodes_logical_id :=
      scanOutputs env.nonbeacon_outputs "AsgLogicalId"
        r.cloudformation_asg_non_beacon_nodes_logical_id,
    cloudformation_asg_nlb_arn :=
      if needNlb then
        scanOutputs env.nonbeacon_outputs "NlbArn"
          r.cloudformation_asg_nlb_arn
      else r.cloudformation_asg_nlb_arn,
    cloudformation_asg_nlb_target_group_arn :=
      if needNlb then
        scanOutputs env.nonbeacon_outputs "NlbTargetGroupArn"
          r.cloudformation_asg_nlb_target_group_arn
      else r.cloudformation_asg_nlb_target_group_arn,
    cloudformation_asg_nlb_dns_name :=
      if needNlb then
        scanOutputs env.nonbeacon_outputs "NlbDnsName"
          r.cloudformation_asg_nlb_dns_name
      else r.cloudformation_asg_nlb_dns_name }

def nonBeaconStep (env : ApplyEnv) (spec : OpsSpec) (r : Resources) : StepR :=
  if r.cloudformation_asg_non_beacon_nodes_logical_id = none then
    match r.cloudformation_asg_non_beacon_nodes with
    | none => ⟨r, [], false⟩
    | some _ =>
      let desired := spec.machine.non_beacon_nodes
      let needNlb := r.cloudformation_asg_nlb_target_group_arn.isNone
      let r' := nonBeaconUpdated env needNlb r
      let calls : List AwsCall := [.createStack .asgNonBeaconNodes,
        .pollStack .asgNonBeaconNodes .createComplete (waitSecs desired) 30]
      if r'.cloudformation_asg_non_beacon_nodes_logical_id = none ∨
          (needNlb ∧ (r'.cloudformation_asg_nlb_arn = none ∨
            r'.cloudformation_asg_nlb_target_group_arn = none ∨
            r'.cloudformation_asg_nlb_dns_name = none)) then
        ⟨r', calls, false⟩
      else ⟨r', calls, true⟩
  else ⟨r, [], true⟩

/-- execute_apply of src/src/bin/avalanche-ops-nodes-aws/main.rs as the
sequence of its provisioning steps over the resources record.  The S3
bucket creation and artifact uploads (always executed, not gated on the
record), the rendezvous waits and the health checks (modelled separately)
do not touch the record and are omitted from the trace. -/
def execute_apply (env : ApplyEnv) (spec : OpsSpec) (r : Resources) : StepR :=
  runSteps ⟨r, [], true⟩
    [identityStep env, defaultsStep spec, kmsStep env, ec2KeyStep env,
     roleStep env, vpcStep env, asgParamsStep, beaconStep env spec,
     nonBeaconStep env spec]

/-- The environment execute_delete observes (only the caller identity). -/
structure DeleteEnv where
  current_identity : String

/-- main.rs lines 1305-1321: delete requires a recorded identity equal to
the current caller; an unknown or different identity errors out before any
deletion. -/
def delIdentityStep (env : DeleteEnv) (r : Resources) : StepR :=
  match r.identity with
  | some id => if id ≠ env.current_identity then ⟨r, [], false⟩ else ⟨r, [], true⟩
  | none => ⟨r, [], false⟩

/-- main.rs lines 1357-1380: delete the EC2 key pair (and the local key
files) when both the key name and the key path are recorded. -/
def delKeyStep (r : Resources) : StepR :=
  if r.ec2_key_name.isSome && r.ec2_key_path.isSome then
    ⟨r, [.deleteKeyPair], true⟩
  else ⟨r, [], true⟩

/-- main.rs lines 1384-1396: schedule the KMS key deletion when both the id
and the arn are recorded. -/
def delKmsStep (r : Resources) : StepR :=
  if r.kms_cmk_id.isSome && r.kms_cmk_arn.isSome then
    ⟨r, [.scheduleKmsKeyDelete], true⟩
  else ⟨r, [], true⟩

/-- main.rs lines 1399-1417: trigger the instance-role stack deletion when
the profile arn is recorded (the stack name is unwrapped). -/
def delRoleTriggerStep (r : Resources) : StepR :=
  if r.cloudformation_ec2_instance_profile_arn.isSome then
    match r.cloudformation_ec2_instance_role with
    | none => ⟨r, [], false⟩
    | some _ => ⟨r, [.deleteStack .ec2InstanceRole], true⟩
  else ⟨r, [], true⟩

/-- main.rs lines 1419-1437: trigger the non-beacon ASG stack deletion when
its logical id is recorded. -/
def delNonBeaconTriggerStep (r : Resources) : StepR :=
  if r.cloudformation_asg_non_beacon_nodes_logical_id.isSome then
    match r.cloudformation_asg_non_beacon_nodes with
    | none => ⟨r, [], false⟩
    | some _ => ⟨r, [.deleteStack .asgNonBeaconNodes], true⟩
  else ⟨r, [], true⟩

/-- main.rs lines 1439-1458: trigger the beacon ASG stack deletion when the
machine wants beacon nodes and its logical id is recorded. -/
def delBeaconTriggerStep (spec : OpsSpec) (r : Resources) : StepR :=
  if spec.machine.beacon_nodes.getD 0 > 0 ∧
      r.cloudformation_asg_beacon_nodes_logical_id.isSome then
    match r.cloudformation_asg_beacon_nodes with
    | none => ⟨r, [], false⟩
    | some _ => ⟨r, [.deleteStack .asgBeaconNodes], true⟩
  else ⟨r, [], true⟩

/-- main.rs lines 1460-1487: confirm the non-beacon ASG deletion by polling
for DeleteComplete with the waitSecs budget of the non-beacon count. -/
def delNonBeaconConfirmStep (spec : OpsSpec) (r : Resources) : StepR :=
  if r.cloudformation_asg_non_beacon_nodes_logical_id.isSome then
    match r.cloudformation_asg_non_beacon_nodes with
    | none => ⟨r, [], false⟩
    | some _ =>
      ⟨r, [.pollStack .asgNonBeaconNodes .deleteComplete
          (waitSecs spec.machine.non_beacon_nodes) 30], true⟩
  else ⟨r, [], true⟩

/-- main.rs lines 1489-1516: confirm the beacon ASG deletion by polling for
DeleteComplete with the waitSecs budget of the beacon count. -/
def delBeaconConfirmStep (spec : OpsSpec) (r : Resources) : StepR :=
  if spec.machine.beacon_nodes.getD 0 > 0 ∧
      r.cloudformation_asg_beacon_nodes_logical_id.isSome then
    match r.cloudformation_asg_beacon_nodes with
    | none => ⟨r, [], false⟩
    | some _ =>
      ⟨r, [.pollStack .asgBeaconNodes .deleteComplete
          (waitSecs (spec.machine.beacon_nodes.getD 0)) 30], true⟩
  else ⟨r, [], true⟩

/-- main.rs lines 1518-1542: delete the VPC stack (after compute is gone)
when the VPC id, the security-group id and the subnet ids are all recorded,
then poll for DeleteComplete with a 500-second timeout. -/
def delVpcStep (r : Resources) : StepR :=
  if r.cloudformation_vpc_id.isSome &&
      r.cloudformation_vpc_security_group_id.isSome &&
      r.cloudformation_vpc_public_subnet_ids.isSome then
    match r.cloudformation_vpc with
    | none => ⟨r, [], false⟩
    | some _ =>
      ⟨r, [.deleteStack .vpc, .pollStack .vpc .deleteComplete 500 30], true⟩
  else ⟨r, [], true⟩

/-- main.rs lines 1544-1564: confirm the instance-role stack deletion. -/
def delRoleConfirmStep (r : Resources) : StepR :=
  if r.cloudformation_ec2_instance_profile_arn.isSome then
    match r.cloudformation_ec2_instance_role with
    | none => ⟨r, [], false⟩
    | some _ =>
      ⟨r, [.pollStack .ec2InstanceRole .deleteComplete 500 30], true⟩
  else ⟨r, [], true⟩

/-- main.rs lines 1566-1607: only under the delete-all flag, delete the
cloudwatch log group named by the cluster id, then the state bucket's
objects and the state bucket itself; the db-backup bucket, when present, is
only logged and explicitly skipped (its delete calls are commented out). -/
def delAllStep (delete_all : Bool) (spec : OpsSpec) (r : Resources) : StepR :=
  if delete_all then
    ⟨r, [.deleteLogGroup spec.id, .deleteObjects r.s3_bucket,
        .deleteBucket r.s3_bucket], true⟩
  else ⟨r, [], true⟩

/-- execute_delete of src/src/bin/avalanche-ops-nodes-aws/main.rs lines
1282-1612 as the sequence of its deletion steps over the resources record
(which delete never mutates).  Local key-file removals are omitted from the
trace (they are not AWS calls). -/
def execute_delete (env : DeleteEnv) (spec : OpsSpec) (delete_all : Bool)
    (r : Resources) : StepR :=
  runSteps ⟨r, [], true⟩
    [delIdentityStep env, delKeyStep, delKmsStep, delRoleTriggerStep,
     delNonBeaconTriggerStep, delBeaconTriggerStep spec,
     delNonBeaconConfirmStep spec, delBeaconConfirmStep spec, delVpcStep,
     delRoleConfirmStep, delAllStep delete_all spec]

/-- Field-wise monotonicity on Option fields: an unset field may be filled,
a set field keeps its value. -/
def optLE {α : Type} (a b : Option α) : Prop :=
  a = none ∨ b = a

/-- The resources-record monotonicity invariant of the claim: every
provisioning-step field, once Some, keeps its value. -/
def Preserved (a b : Resources) : Prop :=
  optLE a.identity b.identity ∧
  optLE a.kms_cmk_id b.kms_cmk_id ∧
  optLE a.kms_cmk_arn b.kms_cmk_arn ∧
  optLE a.ec2_key_name b.ec2_key_name ∧
  optLE a.ec2_key_path b.ec2_key_path ∧
  optLE a.cloudformation_ec2_instance_role b.cloudformation_ec2_instance_role ∧
  optLE a.cloudformation_ec2_instance_profile_arn
    b.cloudformation_ec2_instance_profile_arn ∧
  optLE a.cloudformation_vpc b.cloudformation_vpc ∧
  optLE a.cloudformation_vpc_id b.cloudformation_vpc_id ∧
  optLE a.cloudformation_vpc_security_group_id
    b.cloudformation_vpc_security_group_id ∧
  optLE a.cloudformation_vpc_public_subnet_ids
    b.cloudformation_vpc_public_subnet_ids ∧
  optLE a.cloudformation_asg_beacon_nodes b.cloudformation_asg_beacon_nodes ∧
  optLE a.cloudformation_asg_beacon_nodes_logical_id
    b.cloudformation_asg_beacon_nodes_logical_id ∧
  optLE a.cloudformation_asg_non_beacon_nodes
    b.cloudformation_asg_non_beacon_nodes ∧
  optLE a.cloudformation_asg_non_beacon_nodes_logical_id
    b.cloudformation_asg_non_beacon_nodes_logical_id

end Ops

namespace Cb58

/-- The base58 alphabet of the bitcoin-crate encoder used by
src/src/avalanche/types/formatting.rs (no 0, I, O or l). -/
def alphabet : List Char :=
  ['1', '2', '3', '4', '5', '6', '7', '8', '9',
   'A', 'B', 'C', 'D', 'E', 'F', 'G', 'H', 'J', 'K', 'L', 'M', 'N',
   'P', 'Q', 'R', 'S', 'T', 'U', 'V', 'W', 'X', 'Y', 'Z',
   'a', 'b', 'c', 'd', 'e', 'f', 'g', 'h', 'i', 'j', 'k', 'm', 'n',
   'o', 'p', 'q', 'r', 's', 't', 'u', 'v', 'w', 'x', 'y', 'z']

/-- Digit value to character (base58::encode_slice digit table). -/
def digitChar (v : Nat) : Char :=
  alphabet.getD v '?'

/-- Character to digit value; none for a character outside the alphabet
(base58::from rejects such input). -/
def charValue (c : Char) : Option Nat :=
  alphabet.findIdx? (fun a => a == c)

/-- The per-character decode loop of base58::from: every character must be
in the alphabet, else the whole decode errors. -/
def decodeChars : List Char → Option (List Nat)
  | [] => some []
  | c :: cs =>
    match charValue c, decodeChars cs with
    | some v, some vs => some (v :: vs)
    | _, _ => none

/-- The big-endian digit accumulation of base58::from: acc = acc * 58 + v
over the digit values in string order. -/
def base58Value (vals : List Nat) : Nat :=
  vals.foldl (fun acc v => acc * 58 + v) 0

/-- Little-endian digits of n in base b (the repeated div/mod loop of the
bignum conversions), driven by a fuel that the initial n bounds. -/
def toDigitsFuel (b : Nat) : Nat → Nat → List Nat
  | 0, _ => []
  | _ + 1, 0 => []
  | fuel + 1, n + 1 => ((n + 1) % b) :: toDigitsFuel b fuel ((n + 1) / b)

/-- Little-endian digits of n in base b. -/
def toDigitsLE (b n : Nat) : List Nat :=
  toDigitsFuel b n n

/-- A byte list read as a big-endian base-256 number (the bignum the encoder
accumulates from the input bytes). -/
def beNat (d : List Nat) : Nat :=
  Nat.ofDigits 256 d.reverse

/-- A number written out as its minimal big-endian byte list. -/
def natToBytesBE (n : Nat) : List Nat :=
  (toDigitsLE 256 n).reverse

/-- base58::encode_slice of the bitcoin crate as used by formatting.rs:
each leading zero byte becomes a '1' character, and the remaining value is
the big-endian base-58 rendering of the bytes read as one big-endian
base-256 number. -/
def encode_slice (d : List Nat) : List Char :=
  List.replicate (d.takeWhile (fun x => x == 0)).length '1' ++
    (toDigitsLE 58 (beNat d)).reverse.map digitChar

/-- base58::from of the bitcoin crate as used by formatting.rs: reject any
character outside the alphabet; each leading '1' character becomes a zero
byte, and the accumulated base-58 value is written out as big-endian
bytes. -/
def base58_from (s : List Char) : Except String (List Nat) :=
  match decodeChars s with
  | none => .error "failed to decode base58"
  | some vals =>
    .ok (List.replicate (s.takeWhile (fun c => c == '1')).length 0 ++
      natToBytesBE (base58Value vals))

/-- CHECKSUM_LENGTH in src/src/avalanche/types/formatting.rs line 11. -/
def CHECKSUM_LENGTH : Nat := 4

/-- encode_cb58_with_checksum of src/src/avalanche/types/formatting.rs
lines 17-30, parameterized by the digest function sha — the code calls
crate::utils::hash::compute_sha256, library code outside src/, whose
contract (modelled from the spec) is the 32-byte SHA-256 digest: the last
CHECKSUM_LENGTH bytes of sha(d) are appended to d and the result is
base58-encoded. -/
def encode_cb58_with_checksum (sha : List Nat → List Nat) (d : List Nat) :
    List Char :=
  encode_slice (d ++ (sha d).drop ((sha d).length - CHECKSUM_LENGTH))

/-- Outcome of decode_cb58_with_checksum: a value, an error, or a panic (the
Rust slice expressions underflow usize when fewer bytes are available than
CHECKSUM_LENGTH). -/
inductive DecodeOutcome where
  | ok (bytes : List Nat)
  | err (msg : String)
  | panicked
deriving Repr, DecidableEq

/-- decode_cb58_with_checksum of src/src/avalanche/types/formatting.rs
lines 34-62: base58-decode, split off the trailing CHECKSUM_LENGTH bytes,
recompute the digest of the rest and compare (eq_u8_vectors, byte-vector
equality).  The slice expressions decoded[decoded_length - 4..] and
decoded[..decoded_length - 4] do not guard the subtraction: with fewer than
4 decoded bytes the usize subtraction underflows and the indexing panics,
modelled by the panicked outcome (likewise, in principle, for a digest
shorter than 4 bytes). -/
def decode_cb58_with_checksum (sha : List Nat → List Nat) (s : List Char) :
    DecodeOutcome :=
  match base58_from s with
  | .error e => .err e
  | .ok decoded =>
    if decoded.length < CHECKSUM_LENGTH then .panicked
    else
      let orig := decoded.take (decoded.length - CHECKSUM_LENGTH)
      if (sha orig).length < CHECKSUM_LENGTH then .panicked
      else
        if decoded.drop (decoded.length - CHECKSUM_LENGTH) =
            (sha orig).drop ((sha orig).length - CHECKSUM_LENGTH) then
          .ok orig
        else .err "invalid checksum"

/-- A concrete stand-in digest function for witnesses: a constant 32-byte
output. -/
def shaW : List Nat → List Nat :=
  fun _ => List.replicate 32 7

end Cb58

namespace Network

lemma nonBeaconChecks_ok_iff (c : Config) :
    c.nonBeaconChecks = .ok () ↔
      MIN_MACHINE_NON_BEACON_NODES ≤ c.machine.non_beacon_nodes ∧
        c.machine.non_beacon_nodes ≤ MAX_MACHINE_NON_BEACON_NODES := by
  unfold Config.nonBeaconChecks
  split_ifs <;> simp_all <;> omega

lemma networkChecks_ok_iff (c : Config) :
    c.networkChecks = .ok () ↔
      ((c.network_id = "mainnet" ∧ c.machine.beacon_nodes.getD 0 = 0) ∨
        (c.network_id ≠ "mainnet" ∧ ¬ reservedNetwork c.network_id ∧
          MIN_MACHINE_BEACON_NODES ≤ c.machine.beacon_nodes.getD 0 ∧
          c.machine.beacon_nodes.getD 0 ≤ MAX_MACHINE_BEACON_NODES)) ∧
      (MIN_MACHINE_NON_BEACON_NODES ≤ c.machine.non_beacon_nodes ∧
        c.machine.non_beacon_nodes ≤ MAX_MACHINE_NON_BEACON_NODES) := by
  unfold Config.networkChecks
  split_ifs with h1 h2 h3 h4 h5 h6 <;>
    simp_all [nonBeaconChecks_ok_iff, MIN_MACHINE_BEACON_NODES,
      MAX_MACHINE_BEACON_NODES, MIN_MACHINE_NON_BEACON_NODES,
      MAX_MACHINE_NON_BEACON_NODES] <;> omega

lemma validate_ok_iff (fs : String → Bool) (c : Config) :
    c.validate fs = .ok () ↔
      c.id ≠ "" ∧ fs c.install_artifacts.genesis_file = true ∧
      fs c.install_artifacts.avalanched_bin = true ∧
      fs c.install_artifacts.avalanchego_bin = true ∧
      (∀ d, c.install_artifacts.plugins_dir = some d → fs d = true) ∧
      c.network_id ≠ "" ∧
      (∀ r, c.aws_resources = some r → r.region ≠ "") ∧
      c.networkChecks = .ok () := by
  unfold Config.validate
  cases hp : c.install_artifacts.plugins_dir <;>
    cases ha : c.aws_resources <;>
      (split_ifs <;> simp_all)

end Network

/-- C2, counterexample to the claim as stated: cfgFuji has a non-mainnet
network name, an anchor count of 3 within the range 1..10, a non-anchor count
within 1..20, and satisfies every other validation condition on a file system
where all paths exist, yet network::Config::validate rejects it (the reserved
name "fuji" is refused outright), so "otherwise accepts anchor counts in
[1,10]" fails for it. -/
theorem claim_c2_counterexample :
    Network.cfgFuji.network_id ≠ "mainnet" ∧
      Network.cfgFuji.machine.beacon_nodes.getD 0 = 3 ∧
      Network.cfgFuji.machine.non_beacon_nodes = 2 ∧
      Network.cfgFuji.id ≠ "" ∧
      Network.Config.validate Network.fsAll Network.cfgFuji ≠ .ok () := by
  refine ⟨by decide, by decide, by decide, by decide, ?_⟩
  have hval : Network.Config.validate Network.fsAll Network.cfgFuji =
      .error "network is not supported yet in this tooling" := rfl
  rw [hval]
  exact fun h => Except.noConfusion h

/-- C2 (amended): network::Config::validate fails for every Spec with
network_id "mainnet" and a positive anchor (beacon) count; fails for every
Spec with a non-mainnet network name whose anchor count is 0 or above 10;
fails whenever the non-anchor count is outside 1..20; and accepts anchor
counts in 1..10 for custom networks, where custom excludes the reserved
known-network names (cascade, denali, everest, fuji, testnet, testing,
local), which validate rejects unconditionally. -/
theorem claim_c2_validation_boundaries (fs : String → Bool) (c : Network.Config) :
    (c.network_id = "mainnet" → 0 < c.machine.beacon_nodes.getD 0 →
      c.validate fs ≠ .ok ()) ∧
    (c.network_id ≠ "mainnet" →
      (c.machine.beacon_nodes.getD 0 = 0 ∨
        Network.MAX_MACHINE_BEACON_NODES < c.machine.beacon_nodes.getD 0) →
      c.validate fs ≠ .ok ()) ∧
    ((c.machine.non_beacon_nodes < Network.MIN_MACHINE_NON_BEACON_NODES ∨
        Network.MAX_MACHINE_NON_BEACON_NODES < c.machine.non_beacon_nodes) →
      c.validate fs ≠ .ok ()) ∧
    (c.id ≠ "" → fs c.install_artifacts.genesis_file = true →
      fs c.install_artifacts.avalanched_bin = true →
      fs c.install_artifacts.avalanchego_bin = true →
      (∀ d, c.install_artifacts.plugins_dir = some d → fs d = true) →
      c.network_id ≠ "" → c.network_id ≠ "mainnet" →
      ¬ Network.reservedNetwork c.network_id →
      (∀ r, c.aws_resources = some r → r.region ≠ "") →
      Network.MIN_MACHINE_BEACON_NODES ≤ c.machine.beacon_nodes.getD 0 →
      c.machine.beacon_nodes.getD 0 ≤ Network.MAX_MACHINE_BEACON_NODES →
      Network.MIN_MACHINE_NON_BEACON_NODES ≤ c.machine.non_beacon_nodes →
      c.machine.non_beacon_nodes ≤ Network.MAX_MACHINE_NON_BEACON_NODES →
      c.validate fs = .ok ()) := by
  refine ⟨?_, ?_, ?_, ?_⟩
  · intro h1 h2 hok
    rw [Network.validate_ok_iff] at hok
    have hnet := (Network.networkChecks_ok_iff c).mp hok.2.2.2.2.2.2.2
    rcases hnet.1 with ⟨_, hz⟩ | ⟨hne, _⟩
    · omega
    · exact hne h1
  · intro h1 h2 hok
    rw [Network.validate_ok_iff] at hok
    have hnet := (Network.networkChecks_ok_iff c).mp hok.2.2.2.2.2.2.2
    simp only [Network.MIN_MACHINE_BEACON_NODES,
      Network.MAX_MACHINE_BEACON_NODES] at hnet h2
    rcases hnet.1 with ⟨hm, _⟩ | ⟨_, _, hlo, hhi⟩
    · exact h1 hm
    · rcases h2 with h2 | h2 <;> omega
  · intro h2 hok
    rw [Network.validate_ok_iff] at hok
    have hnet := (Network.networkChecks_ok_iff c).mp hok.2.2.2.2.2.2.2
    have hnon := hnet.2
    simp only [Network.MIN_MACHINE_NON_BEACON_NODES,
      Network.MAX_MACHINE_NON_BEACON_NODES] at hnon h2
    rcases h2 with h2 | h2 <;> omega
  · intro h1 h2 h3 h4 h5 h6 h7 h8 h9 h10 h11 h12 h13
    rw [Network.validate_ok_iff]
    refine ⟨h1, h2, h3, h4, h5, h6, h9, ?_⟩
    exact (Network.networkChecks_ok_iff c).mpr
      ⟨Or.inr ⟨h7, h8, h10, h11⟩, h12, h13⟩

/-- C4, counterexample to the claim as stated: cfgNet1 has network_id 1, so
Config::is_mainnet is true for it, and a non-empty genesis, yet
avalanchego::Config::validate accepts it (in an environment where the genesis
file exists and records the matching network id 1): the genesis-forbidden
check only fires when network_id is None, not for the numeric mainnet id. -/
theorem claim_c4_counterexample :
    Avalanchego.cfgNet1.is_mainnet = true ∧
      Avalanchego.cfgNet1.genesis ≠ none ∧
      Avalanchego.Config.validate Avalanchego.env1 Avalanchego.cfgNet1 =
        .ok := by
  decide

/-- C4 (amended): avalanchego::Config::validate rejects a non-empty genesis
exactly in the unset-network-id case (not for every is_mainnet Config): when
network_id is None and genesis is set it errors, and whenever network_id is
set — including Some 1, which is_mainnet also treats as mainnet — it instead
requires a genesis and errors when genesis is unset; with both unset the
genesis checks pass and validate reduces to the staking checks. -/
theorem claim_c4_genesis_iff_custom (env : Avalanchego.Env)
    (c : Avalanchego.Config) :
    (c.network_id = none → c.genesis ≠ none → c.validate env ≠ .ok) ∧
    (c.network_id ≠ none → c.genesis = none → c.validate env ≠ .ok) ∧
    (c.is_mainnet = true → c.network_id = some 1 → c.genesis = none →
      c.validate env ≠ .ok) ∧
    (c.network_id = none → c.genesis = none →
      c.validate env = c.stakingChecks) := by
  refine ⟨?_, ?_, ?_, ?_⟩
  · intro h1 h2
    cases hg : c.genesis with
    | none => exact absurd hg h2
    | some p => simp [Avalanchego.Config.validate, h1, hg]
  · intro h1 h2
    cases hn : c.network_id with
    | none => exact absurd hn h1
    | some v => simp [Avalanchego.Config.validate, hn, h2]
  · intro _ h2 h3
    simp [Avalanchego.Config.validate, h2, h3]
  · intro h1 h2
    simp [Avalanchego.Config.validate, h1, h2]

namespace Health

lemma probeGo_success_iff (resp : Nat → Bool) :
    ∀ fuel i, (probeGo resp fuel i).1 = true ↔
      ∃ j, j < fuel ∧ resp (i + j) = true := by
  intro fuel
  induction fuel with
  | zero => intro i; simp [probeGo]
  | succ f ih =>
    intro i
    by_cases h : resp i = true
    · refine iff_of_true ?_ ⟨0, by omega, by simpa using h⟩
      simp [probeGo, h]
    · rw [show probeGo resp (f + 1) i =
          (let r := probeGo resp f (i + 1); (r.1, r.2.1 + 1, r.2.2 + 10)) by
        simp [probeGo, h]]
      simp only []
      rw [ih (i + 1)]
      constructor
      · rintro ⟨j, hj, hr⟩
        exact ⟨j + 1, by omega, by rw [show i + (j + 1) = i + 1 + j by omega]; exact hr⟩
      · rintro ⟨j, hj, hr⟩
        cases j with
        | zero => simp at hr; exact absurd hr h
        | succ k =>
          exact ⟨k, by omega, by rw [show i + 1 + k = i + (k + 1) by omega]; exact hr⟩

lemma probeGo_count_le (resp : Nat → Bool) :
    ∀ fuel i, (probeGo resp fuel i).2.1 ≤ fuel := by
  intro fuel
  induction fuel with
  | zero => intro i; simp [probeGo]
  | succ f ih =>
    intro i
    by_cases h : resp i = true <;> simp [probeGo, h]
    exact ih (i + 1)

lemma probeGo_first (resp : Nat → Bool) :
    ∀ fuel j i, j < fuel → resp (i + j) = true →
      (∀ k, k < j → resp (i + k) = false) →
      probeGo resp fuel i = (true, j + 1, 10 * j) := by
  intro fuel
  induction fuel with
  | zero => intro j i hj; omega
  | succ f ih =>
    intro j i hj hr hbefore
    cases j with
    | zero =>
      simp at hr
      simp [probeGo, hr]
    | succ k =>
      have h0 : resp i = false := by
        have := hbefore 0 (by omega)
        simpa using this
      have hrec := ih k (i + 1) (by omega)
        (by rw [show i + 1 + k = i + (k + 1) by omega]; exact hr)
        (by intro m hm
            rw [show i + 1 + m = i + (m + 1) by omega]
            exact hbefore (m + 1) (by omega))
      simp [probeGo, h0, hrec]
      omega

lemma healthVerify_error_iff (rs : List (Nat → Bool)) :
    healthVerify rs = .error "health/liveness check failed" ↔
      ∃ r ∈ rs, (checkNodeHealth r).1 = false := by
  induction rs with
  | nil => simp [healthVerify]
  | cons r rest ih =>
    by_cases h : (checkNodeHealth r).1 = true <;>
      simp [healthVerify, h, ih]

end Health

/-- C5: each discovered node receives at most 10 liveness probes; when the
first healthy reply is the i-th probe, exactly i+1 probes are issued with 10
seconds slept between attempts (10 * i seconds in total); and execute_apply
aborts with the fixed error "health/liveness check failed" exactly when some
node answers unhealthy on all 10 probes. -/
theorem claim_c5_health_budget (resps : List (Nat → Bool)) :
    (∀ r, (Health.checkNodeHealth r).2.1 ≤ 10) ∧
    (∀ r i, i < 10 → r i = true → (∀ j, j < i → r j = false) →
      Health.checkNodeHealth r = (true, i + 1, 10 * i)) ∧
    (Health.healthVerify resps = .error "health/liveness check failed" ↔
      ∃ r ∈ resps, ∀ i, i < 10 → r i = false) := by
  refine ⟨fun r => Health.probeGo_count_le r 10 0, ?_, ?_⟩
  · intro r i hi hr hbefore
    have := Health.probeGo_first r 10 i 0 hi (by simpa using hr)
      (by intro k hk; simpa using hbefore k hk)
    simpa [Health.checkNodeHealth] using this
  · rw [Health.healthVerify_error_iff]
    constructor
    · rintro ⟨r, hmem, hfail⟩
      refine ⟨r, hmem, ?_⟩
      intro i hi
      by_contra hcon
      have : (Health.checkNodeHealth r).1 = true := by
        rw [Health.checkNodeHealth, Health.probeGo_success_iff]
        exact ⟨i, hi, by simpa using eq_true_of_ne_false hcon⟩
      simp [this] at hfail
    · rintro ⟨r, hmem, hfail⟩
      refine ⟨r, hmem, ?_⟩
      by_contra hcon
      have hsu : (Health.checkNodeHealth r).1 = true := by
        cases hb : (Health.checkNodeHealth r).1
        · exact absurd hb hcon
        · rfl
      rw [Health.checkNodeHealth, Health.probeGo_success_iff] at hsu
      obtain ⟨j, hj, hr⟩ := hsu
      have := hfail j hj
      simp at hr
      simp [this] at hr

/-- C6, counterexample to the claim as stated: in the steady-state loop a
failed serialization of the readiness marker (sync_ok = false) makes the
iteration panic and terminate the agent process, rather than continuing to
the next period. -/
theorem claim_c6_counterexample :
    Agent.steadyStateStep "beacon" false true = .panicked ∧
      Agent.steadyStateStep "beacon" false true ≠ .next := by
  decide

/-- C6 (amended): once the agent is in its steady-state loop, an anchor
(beacon) node's iteration survives to the next period exactly when both the
marker serialization and the upload succeed; either failure hits an unwrap
and panics, terminating the agent process (nothing is retried), while
non-anchor nodes publish nothing and always continue. -/
theorem claim_c6_steady_state_fatal (sync_ok upload_ok : Bool) :
    (Agent.steadyStateStep "beacon" sync_ok upload_ok = .next ↔
      sync_ok = true ∧ upload_ok = true) ∧
    (Agent.steadyStateStep "beacon" sync_ok upload_ok = .panicked ↔
      (sync_ok = false ∨ upload_ok = false)) ∧
    (∀ t, t ≠ "beacon" → Agent.steadyStateStep t sync_ok upload_ok =
      .next) := by
  refine ⟨?_, ?_, ?_⟩
  · cases sync_ok <;> cases upload_ok <;> simp [Agent.steadyStateStep]
  · cases sync_ok <;> cases upload_ok <;> simp [Agent.steadyStateStep]
  · intro t ht; simp [Agent.steadyStateStep, ht]

namespace Rendezvous

lemma awaitReadyGo_none (listings : Nat → List MarkerKey) (target : Nat)
    (h : ∀ j, (listings j).length < target) :
    ∀ fuel i, awaitReadyGo listings target fuel i = none := by
  intro fuel
  induction fuel with
  | zero => intro i; rfl
  | succ f ih =>
    intro i
    unfold awaitReadyGo
    rw [if_neg (by have := h i; omega)]
    exact ih (i + 1)

end Rendezvous

/-- C3: the rendezvous loop sleeps a fixed 30-second interval then lists the
role-scoped ready dir, returning exactly when the listed count reaches the
desired target: when every listing stays below the target it never returns
(none at every observation bound); when the listing holds the k ≥ target
markers it returns after the first 30-second sleep with one parsed Node per
listed marker, k nodes in all, and distinct markers under one mailbox dir
parse to distinct nodes. -/
theorem claim_c3_rendezvous (listings : Nat → List Rendezvous.MarkerKey)
    (target fuel : Nat) (markers : List Rendezvous.MarkerKey) (d : String) :
    ((∀ i, (listings i).length < target) →
      Rendezvous.await_ready fuel listings target = none) ∧
    ((∀ i, listings i = markers) → target ≤ markers.length → 1 ≤ fuel →
      Rendezvous.await_ready fuel listings target =
        some (30, markers.map Rendezvous.parse_node_from_s3_path)) ∧
    ((markers.map Rendezvous.parse_node_from_s3_path).length =
      markers.length) ∧
    (markers.Nodup → (∀ m ∈ markers, m.dir = d) →
      (markers.map Rendezvous.parse_node_from_s3_path).Nodup) := by
  refine ⟨?_, ?_, by simp, ?_⟩
  · intro h
    exact Rendezvous.awaitReadyGo_none listings target h fuel 0
  · intro hl ht hf
    cases fuel with
    | zero => omega
    | succ f =>
      unfold Rendezvous.await_ready Rendezvous.awaitReadyGo
      rw [show listings 0 = markers from hl 0, if_pos ht]
  · intro hnd hdir
    refine List.Nodup.map_on ?_ hnd
    intro x hx y hy hxy
    cases x with
    | mk xd xn =>
      cases y with
      | mk yd yn =>
        have hdx := hdir _ hx
        have hdy := hdir _ hy
        simp [Rendezvous.parse_node_from_s3_path] at hxy
        simp_all

namespace Ops

lemma optLE_refl {α : Type} (a : Option α) : optLE a a := Or.inr rfl

lemma optLE_trans {α : Type} {a b c : Option α}
    (h1 : optLE a b) (h2 : optLE b c) : optLE a c := by
  rcases h1 with h1 | h1
  · exact Or.inl h1
  · rcases h2 with h2 | h2
    · exact Or.inl (h1 ▸ h2)
    · exact Or.inr (h2.trans h1)

lemma optLE_some {α : Type} {a b : Option α} {v : α}
    (h : optLE a b) (hv : a = some v) : b = some v := by
  rcases h with h | h
  · rw [h] at hv; cases hv
  · rw [h, hv]

lemma Preserved.rfl (a : Resources) : Preserved a a := by
  unfold Preserved
  refine ⟨?_, ?_, ?_, ?_, ?_, ?_, ?_, ?_, ?_, ?_, ?_, ?_, ?_, ?_, ?_⟩ <;>
    exact optLE_refl _

lemma Preserved.trans {a b c : Resources}
    (h1 : Preserved a b) (h2 : Preserved b c) : Preserved a c := by
  unfold Preserved at *
  exact ⟨optLE_trans h1.1 h2.1,
    optLE_trans h1.2.1 h2.2.1,
    optLE_trans h1.2.2.1 h2.2.2.1,
    optLE_trans h1.2.2.2.1 h2.2.2.2.1,
    optLE_trans h1.2.2.2.2.1 h2.2.2.2.2.1,
    optLE_trans h1.2.2.2.2.2.1 h2.2.2.2.2.2.1,
    optLE_trans h1.2.2.2.2.2.2.1 h2.2.2.2.2.2.2.1,
    optLE_trans h1.2.2.2.2.2.2.2.1 h2.2.2.2.2.2.2.2.1,
    optLE_trans h1.2.2.2.2.2.2.2.2.1 h2.2.2.2.2.2.2.2.2.1,
    optLE_trans h1.2.2.2.2.2.2.2.2.2.1 h2.2.2.2.2.2.2.2.2.2.1,
    optLE_trans h1.2.2.2.2.2.2.2.2.2.2.1 h2.2.2.2.2.2.2.2.2.2.2.1,
    optLE_trans h1.2.2.2.2.2.2.2.2.2.2.2.1 h2.2.2.2.2.2.2.2.2.2.2.2.1,
    optLE_trans h1.2.2.2.2.2.2.2.2.2.2.2.2.1 h2.2.2.2.2.2.2.2.2.2.2.2.2.1,
    optLE_trans h1.2.2.2.2.2.2.2.2.2.2.2.2.2.1 h2.2.2.2.2.2.2.2.2.2.2.2.2.2.1,
    optLE_trans h1.2.2.2.2.2.2.2.2.2.2.2.2.2.2 h2.2.2.2.2.2.2.2.2.2.2.2.2.2.2⟩

@[simp] lemma beaconUpdated_identity (env : ApplyEnv) (r : Resources) :
    (beaconUpdated env r).identity = r.identity := rfl

@[simp] lemma beaconUpdated_kms_cmk_id (env : ApplyEnv) (r : Resources) :
    (beaconUpdated env r).kms_cmk_id = r.kms_cmk_id := rfl

@[simp] lemma beaconUpdated_kms_cmk_arn (env : ApplyEnv) (r : Resources) :
    (beaconUpdated env r).kms_cmk_arn = r.kms_cmk_arn := rfl

@[simp] lemma beaconUpdated_ec2_key_name (env : ApplyEnv) (r : Resources) :
    (beaconUpdated env r).ec2_key_name = r.ec2_key_name := rfl

@[simp] lemma beaconUpdated_ec2_key_path (env : ApplyEnv) (r : Resources) :
    (beaconUpdated env r).ec2_key_path = r.ec2_key_path := rfl

@[simp] lemma beaconUpdated_role (env : ApplyEnv) (r : Resources) :
    (beaconUpdated env r).cloudformation_ec2_instance_role =
      r.cloudformation_ec2_instance_role := rfl

@[simp] lemma beaconUpdated_profile (env : ApplyEnv) (r : Resources) :
    (beaconUpdated env r).cloudformation_ec2_instance_profile_arn =
      r.cloudformation_ec2_instance_profile_arn := rfl

@[simp] lemma beaconUpdated_vpc (env : ApplyEnv) (r : Resources) :
    (beaconUpdated env r).cloudformation_vpc = r.cloudformation_vpc := rfl

@[simp] lemma beaconUpdated_vpc_id (env : ApplyEnv) (r : Resources) :
    (beaconUpdated env r).cloudformation_vpc_id =
      r.cloudformation_vpc_id := rfl

@[simp] lemma beaconUpdated_vpc_sg (env : ApplyEnv) (r : Resources) :
    (beaconUpdated env r).cloudformation_vpc_security_group_id =
      r.cloudformation_vpc_security_group_id := rfl

@[simp] lemma beaconUpdated_vpc_subnets (env : ApplyEnv) (r : Resources) :
    (beaconUpdated env r).cloudformation_vpc_public_subnet_ids =
      r.cloudformation_vpc_public_subnet_ids := rfl

@[simp] lemma beaconUpdated_asg_beacon (env : ApplyEnv) (r : Resources) :
    (beaconUpdated env r).cloudformation_asg_beacon_nodes =
      r.cloudformation_asg_beacon_nodes := rfl

@[simp] lemma beaconUpdated_asg_non_beacon (env : ApplyEnv) (r : Resources) :
    (beaconUpdated env r).cloudformation_asg_non_beacon_nodes =
      r.cloudformation_asg_non_beacon_nodes := rfl

@[simp] lemma beaconUpdated_asg_non_beacon_logical (env : ApplyEnv)
    (r : Resources) :
    (beaconUpdated env r).cloudformation_asg_non_beacon_nodes_logical_id =
      r.cloudformation_asg_non_beacon_nodes_logical_id := rfl

@[simp] lemma nonBeaconUpdated_identity (env : ApplyEnv) (b : Bool)
    (r : Resources) :
    (nonBeaconUpdated env b r).identity = r.identity := rfl

@[simp] lemma nonBeaconUpdated_kms_cmk_id (env : ApplyEnv) (b : Bool)
    (r : Resources) :
    (nonBeaconUpdated env b r).kms_cmk_id = r.kms_cmk_id := rfl

@[simp] lemma nonBeaconUpdated_kms_cmk_arn (env : ApplyEnv) (b : Bool)
    (r : Resources) :
    (nonBeaconUpdated env b r).kms_cmk_arn = r.kms_cmk_arn := rfl

@[simp] lemma nonBeaconUpdated_ec2_key_name (env : ApplyEnv) (b : Bool)
    (r : Resources) :
    (nonBeaconUpdated env b r).ec2_key_name = r.ec2_key_name := rfl

@[simp] lemma nonBeaconUpdated_ec2_key_path (env : ApplyEnv) (b : Bool)
    (r : Resources) :
    (nonBeaconUpdated env b r).ec2_key_path = r.ec2_key_path := rfl

@[simp] lemma nonBeaconUpdated_role (env : ApplyEnv) (b : Bool)
    (r : Resources) :
    (nonBeaconUpdated env b r).cloudformation_ec2_instance_role =
      r.cloudformation_ec2_instance_role := rfl

@[simp] lemma nonBeaconUpdated_profile (env : ApplyEnv) (b : Bool)
    (r : Resources) :
    (nonBeaconUpdated env b r).cloudformation_ec2_instance_profile_arn =
      r.cloudformation_ec2_instance_profile_arn := rfl

@[simp] lemma nonBeaconUpdated_vpc (env : ApplyEnv) (b : Bool)
    (r : Resources) :
    (nonBeaconUpdated env b r).cloudformation_vpc =
      r.cloudformation_vpc := rfl

@[simp] lemma nonBeaconUpdated_vpc_id (env : ApplyEnv) (b : Bool)
    (r : Resources) :
    (nonBeaconUpdated env b r).cloudformation_vpc_id =
      r.cloudformation_vpc_id := rfl

@[simp] lemma nonBeaconUpdated_vpc_sg (env : ApplyEnv) (b : Bool)
    (r : Resources) :
    (nonBeaconUpdated env b r).cloudformation_vpc_security_group_id =
      r.cloudformation_vpc_security_group_id := rfl

@[simp] lemma nonBeaconUpdated_vpc_subnets (env : ApplyEnv) (b : Bool)
    (r : Resources) :
    (nonBeaconUpdated env b r).cloudformation_vpc_public_subnet_ids =
      r.cloudformation_vpc_public_subnet_ids := rfl

@[simp] lemma nonBeaconUpdated_asg_beacon (env : ApplyEnv) (b : Bool)
    (r : Resources) :
    (nonBeaconUpdated env b r).cloudformation_asg_beacon_nodes =
      r.cloudformation_asg_beacon_nodes := rfl

@[simp] lemma nonBeaconUpdated_asg_beacon_logical (env : ApplyEnv) (b : Bool)
    (r : Resources) :
    (nonBeaconUpdated env b r).cloudformation_asg_beacon_nodes_logical_id =
      r.cloudformation_asg_beacon_nodes_logical_id := rfl

@[simp] lemma nonBeaconUpdated_asg_non_beacon (env : ApplyEnv) (b : Bool)
    (r : Resources) :
    (nonBeaconUpdated env b r).cloudformation_asg_non_beacon_nodes =
      r.cloudformation_asg_non_beacon_nodes := rfl

lemma identityStep_mono (env : ApplyEnv) (r : Resources) :
    Preserved r (identityStep env r).res := by
  unfold Preserved optLE
  rcases h : r.identity with _ | id
  · simp_all [identityStep, apply_ite]
  · by_cases hid : id ≠ env.current_identity <;> simp_all [identityStep, apply_ite]

lemma defaultsStep_mono (spec : OpsSpec) (r : Resources) :
    Preserved r (defaultsStep spec r).res := by
  unfold Preserved optLE
  simp only [defaultsStep]
  split_ifs <;> simp_all

lemma kmsStep_mono (env : ApplyEnv) (r : Resources) :
    Preserved r (kmsStep env r).res := by
  unfold Preserved optLE
  simp only [kmsStep]
  split_ifs <;> simp_all

lemma ec2KeyStep_mono (env : ApplyEnv) (r : Resources) :
    Preserved r (ec2KeyStep env r).res := by
  unfold Preserved optLE
  rcases hk : r.ec2_key_name with _ | k <;>
    by_cases hp : r.ec2_key_path = none <;>
      simp_all [ec2KeyStep, apply_ite]

lemma roleStep_mono (env : ApplyEnv) (r : Resources) :
    Preserved r (roleStep env r).res := by
  unfold Preserved optLE
  by_cases hp : r.cloudformation_ec2_instance_profile_arn = none <;>
    rcases hn : r.cloudformation_ec2_instance_role with _ | n <;>
      rcases hk : r.kms_cmk_arn with _ | k <;>
        simp_all [roleStep, apply_ite]

lemma vpcStep_mono (env : ApplyEnv) (r : Resources) :
    Preserved r (vpcStep env r).res := by
  unfold Preserved optLE
  by_cases hp : (r.cloudformation_vpc_id = none ∧
      r.cloudformation_vpc_security_group_id = none ∧
      r.cloudformation_vpc_public_subnet_ids = none) <;>
    rcases hn : r.cloudformation_vpc with _ | n <;>
      simp_all [vpcStep, apply_ite]

lemma asgParamsStep_mono (r : Resources) :
    Preserved r (asgParamsStep r).res := by
  unfold asgParamsStep
  split_ifs <;> exact Preserved.rfl r

lemma beaconStep_mono (env : ApplyEnv) (spec : OpsSpec) (r : Resources) :
    Preserved r (beaconStep env spec r).res := by
  unfold Preserved optLE
  by_cases hg : (spec.machine.beacon_nodes.getD 0 > 0 ∧
      r.cloudformation_asg_beacon_nodes_logical_id = none) <;>
    rcases hn : r.cloudformation_asg_beacon_nodes with _ | n <;>
      simp_all [beaconStep, apply_ite]

lemma nonBeaconStep_mono (env : ApplyEnv) (spec : OpsSpec) (r : Resources) :
    Preserved r (nonBeaconStep env spec r).res := by
  unfold Preserved optLE
  by_cases hg : r.cloudformation_asg_non_beacon_nodes_logical_id = none <;>
    rcases hn : r.cloudformation_asg_non_beacon_nodes with _ | n <;>
      simp_all [nonBeaconStep, apply_ite]

end Ops

namespace Ops

lemma identityStep_calls (env : ApplyEnv) (r : Resources) :
    (identityStep env r).calls = [] := by
  rcases h : r.identity with _ | id <;> simp [identityStep, h, apply_ite]

lemma defaultsStep_calls (spec : OpsSpec) (r : Resources) :
    (defaultsStep spec r).calls = [] := rfl

lemma kmsStep_calls (env : ApplyEnv) (r : Resources) :
    (kmsStep env r).calls =
      if r.kms_cmk_id = none ∧ r.kms_cmk_arn = none then
        [.createKmsKey] else [] := by
  unfold kmsStep; split_ifs <;> rfl

lemma ec2KeyStep_calls (env : ApplyEnv) (r : Resources) :
    (ec2KeyStep env r).calls =
      if r.ec2_key_path = none ∧ r.ec2_key_name.isSome then
        [.createKeyPair] else [] := by
  rcases h : r.ec2_key_name with _ | k <;>
    by_cases hp : r.ec2_key_path = none <;>
      simp [ec2KeyStep, h, hp]

lemma roleStep_calls (env : ApplyEnv) (r : Resources) :
    (roleStep env r).calls =
      if r.cloudformation_ec2_instance_profile_arn = none ∧
          r.cloudformation_ec2_instance_role.isSome ∧ r.kms_cmk_arn.isSome then
        [.createStack .ec2InstanceRole,
         .pollStack .ec2InstanceRole .createComplete 500 30]
      else [] := by
  by_cases hp : r.cloudformation_ec2_instance_profile_arn = none <;>
    rcases hn : r.cloudformation_ec2_instance_role with _ | n <;>
      rcases hk : r.kms_cmk_arn with _ | k <;>
        simp [roleStep, hp, hn, hk]

lemma vpcStep_calls (env : ApplyEnv) (r : Resources) :
    (vpcStep env r).calls =
      if (r.cloudformation_vpc_id = none ∧
          r.cloudformation_vpc_security_group_id = none ∧
          r.cloudformation_vpc_public_subnet_ids = none) ∧
          r.cloudformation_vpc.isSome then
        [.createStack .vpc, .pollStack .vpc .createComplete 300 30]
      else [] := by
  by_cases hp : (r.cloudformation_vpc_id = none ∧
      r.cloudformation_vpc_security_group_id = none ∧
      r.cloudformation_vpc_public_subnet_ids = none) <;>
    rcases hn : r.cloudformation_vpc with _ | n <;>
      simp [vpcStep, hp, hn]

lemma asgParamsStep_calls (r : Resources) :
    (asgParamsStep r).calls = [] := by
  unfold asgParamsStep; split_ifs <;> rfl

lemma beaconStep_calls (env : ApplyEnv) (spec : OpsSpec) (r : Resources) :
    (beaconStep env spec r).calls =
      if (spec.machine.beacon_nodes.getD 0 > 0 ∧
          r.cloudformation_asg_beacon_nodes_logical_id = none) ∧
          r.cloudformation_asg_beacon_nodes.isSome then
        [.createStack .asgBeaconNodes,
         .pollStack .asgBeaconNodes .createComplete
           (waitSecs (spec.machine.beacon_nodes.getD 0)) 30]
      else [] := by
  by_cases hg : (spec.machine.beacon_nodes.getD 0 > 0 ∧
      r.cloudformation_asg_beacon_nodes_logical_id = none) <;>
    rcases hn : r.cloudformation_asg_beacon_nodes with _ | n <;>
      simp [beaconStep, hg, hn, apply_ite]

lemma nonBeaconStep_calls (env : ApplyEnv) (spec : OpsSpec) (r : Resources) :
    (nonBeaconStep env spec r).calls =
      if r.cloudformation_asg_non_beacon_nodes_logical_id = none ∧
          r.cloudformation_asg_non_beacon_nodes.isSome then
        [.createStack .asgNonBeaconNodes,
         .pollStack .asgNonBeaconNodes .createComplete
           (waitSecs spec.machine.non_beacon_nodes) 30]
      else [] := by
  by_cases hg : r.cloudformation_asg_non_beacon_nodes_logical_id = none <;>
    rcases hn : r.cloudformation_asg_non_beacon_nodes with _ | n <;>
      simp [nonBeaconStep, hg, hn, apply_ite]

lemma delIdentityStep_res (env : DeleteEnv) (r : Resources) :
    (delIdentityStep env r).res = r := by
  rcases h : r.identity with _ | id <;> simp [delIdentityStep, h, apply_ite]

lemma delKeyStep_res (r : Resources) : (delKeyStep r).res = r := by
  unfold delKeyStep; split_ifs <;> rfl

lemma delKmsStep_res (r : Resources) : (delKmsStep r).res = r := by
  unfold delKmsStep; split_ifs <;> rfl

lemma delRoleTriggerStep_res (r : Resources) :
    (delRoleTriggerStep r).res = r := by
  unfold delRoleTriggerStep
  split_ifs <;> rcases r.cloudformation_ec2_instance_role <;> rfl

lemma delNonBeaconTriggerStep_res (r : Resources) :
    (delNonBeaconTriggerStep r).res = r := by
  unfold delNonBeaconTriggerStep
  split_ifs <;> rcases r.cloudformation_asg_non_beacon_nodes <;> rfl

lemma delBeaconTriggerStep_res (spec : OpsSpec) (r : Resources) :
    (delBeaconTriggerStep spec r).res = r := by
  unfold delBeaconTriggerStep
  split_ifs <;> rcases r.cloudformation_asg_beacon_nodes <;> rfl

lemma delNonBeaconConfirmStep_res (spec : OpsSpec) (r : Resources) :
    (delNonBeaconConfirmStep spec r).res = r := by
  unfold delNonBeaconConfirmStep
  split_ifs <;> rcases r.cloudformation_asg_non_beacon_nodes <;> rfl

lemma delBeaconConfirmStep_res (spec : OpsSpec) (r : Resources) :
    (delBeaconConfirmStep spec r).res = r := by
  unfold delBeaconConfirmStep
  split_ifs <;> rcases r.cloudformation_asg_beacon_nodes <;> rfl

lemma delVpcStep_res (r : Resources) : (delVpcStep r).res = r := by
  unfold delVpcStep
  split_ifs <;> rcases r.cloudformation_vpc <;> rfl

lemma delRoleConfirmStep_res (r : Resources) :
    (delRoleConfirmStep r).res = r := by
  unfold delRoleConfirmStep
  split_ifs <;> rcases r.cloudformation_ec2_instance_role <;> rfl

lemma delAllStep_res (delete_all : Bool) (spec : OpsSpec) (r : Resources) :
    (delAllStep delete_all spec r).res = r := by
  unfold delAllStep; split_ifs <;> rfl

lemma delIdentityStep_calls (env : DeleteEnv) (r : Resources) :
    (delIdentityStep env r).calls = [] := by
  rcases h : r.identity with _ | id <;> simp [delIdentityStep, h, apply_ite]

lemma delKeyStep_calls (r : Resources) :
    (delKeyStep r).calls =
      if r.ec2_key_name.isSome && r.ec2_key_path.isSome then
        [.deleteKeyPair] else [] := by
  unfold delKeyStep; split_ifs <;> rfl

lemma delKmsStep_calls (r : Resources) :
    (delKmsStep r).calls =
      if r.kms_cmk_id.isSome && r.kms_cmk_arn.isSome then
        [.scheduleKmsKeyDelete] else [] := by
  unfold delKmsStep; split_ifs <;> rfl

lemma delRoleTriggerStep_calls (r : Resources) :
    (delRoleTriggerStep r).calls =
      if r.cloudformation_ec2_instance_profile_arn.isSome ∧
          r.cloudformation_ec2_instance_role.isSome then
        [.deleteStack .ec2InstanceRole] else [] := by
  by_cases hp : r.cloudformation_ec2_instance_profile_arn.isSome = true <;>
    rcases hn : r.cloudformation_ec2_instance_role with _ | n <;>
      simp [delRoleTriggerStep, hp, hn]

lemma delNonBeaconTriggerStep_calls (r : Resources) :
    (delNonBeaconTriggerStep r).calls =
      if r.cloudformation_asg_non_beacon_nodes_logical_id.isSome ∧
          r.cloudformation_asg_non_beacon_nodes.isSome then
        [.deleteStack .asgNonBeaconNodes] else [] := by
  by_cases hp :
      r.cloudformation_asg_non_beacon_nodes_logical_id.isSome = true <;>
    rcases hn : r.cloudformation_asg_non_beacon_nodes with _ | n <;>
      simp [delNonBeaconTriggerStep, hp, hn]

lemma delBeaconTriggerStep_calls (spec : OpsSpec) (r : Resources) :
    (delBeaconTriggerStep spec r).calls =
      if (spec.machine.beacon_nodes.getD 0 > 0 ∧
          r.cloudformation_asg_beacon_nodes_logical_id.isSome) ∧
          r.cloudformation_asg_beacon_nodes.isSome then
        [.deleteStack .asgBeaconNodes] else [] := by
  by_cases hp : (spec.machine.beacon_nodes.getD 0 > 0 ∧
      r.cloudformation_asg_beacon_nodes_logical_id.isSome = true) <;>
    rcases hn : r.cloudformation_asg_beacon_nodes with _ | n <;>
      simp [delBeaconTriggerStep, hp, hn]

lemma delNonBeaconConfirmStep_calls (spec : OpsSpec) (r : Resources) :
    (delNonBeaconConfirmStep spec r).calls =
      if r.cloudformation_asg_non_beacon_nodes_logical_id.isSome ∧
          r.cloudformation_asg_non_beacon_nodes.isSome then
        [.pollStack .asgNonBeaconNodes .deleteComplete
          (waitSecs spec.machine.non_beacon_nodes) 30] else [] := by
  by_cases hp :
      r.cloudformation_asg_non_beacon_nodes_logical_id.isSome = true <;>
    rcases hn : r.cloudformation_asg_non_beacon_nodes with _ | n <;>
      simp [delNonBeaconConfirmStep, hp, hn]

lemma delBeaconConfirmStep_calls (spec : OpsSpec) (r : Resources) :
    (delBeaconConfirmStep spec r).calls =
      if (spec.machine.beacon_nodes.getD 0 > 0 ∧
          r.cloudformation_asg_beacon_nodes_logical_id.isSome) ∧
          r.cloudformation_asg_beacon_nodes.isSome then
        [.pollStack .asgBeaconNodes .deleteComplete
          (waitSecs (spec.machine.beacon_nodes.getD 0)) 30] else [] := by
  by_cases hp : (spec.machine.beacon_nodes.getD 0 > 0 ∧
      r.cloudformation_asg_beacon_nodes_logical_id.isSome = true) <;>
    rcases hn : r.cloudformation_asg_beacon_nodes with _ | n <;>
      simp [delBeaconConfirmStep, hp, hn]

lemma delVpcStep_calls (r : Resources) :
    (delVpcStep r).calls =
      if (r.cloudformation_vpc_id.isSome &&
          r.cloudformation_vpc_security_group_id.isSome &&
          r.cloudformation_vpc_public_subnet_ids.isSome) ∧
          r.cloudformation_vpc.isSome then
        [.deleteStack .vpc, .pollStack .vpc .deleteComplete 500 30]
      else [] := by
  by_cases hp : (r.cloudformation_vpc_id.isSome &&
      r.cloudformation_vpc_security_group_id.isSome &&
      r.cloudformation_vpc_public_subnet_ids.isSome) = true <;>
    rcases hn : r.cloudformation_vpc with _ | n <;>
      simp [delVpcStep, hp, hn]

lemma delRoleConfirmStep_calls (r : Resources) :
    (delRoleConfirmStep r).calls =
      if r.cloudformation_ec2_instance_profile_arn.isSome ∧
          r.cloudformation_ec2_instance_role.isSome then
        [.pollStack .ec2InstanceRole .deleteComplete 500 30] else [] := by
  by_cases hp : r.cloudformation_ec2_instance_profile_arn.isSome = true <;>
    rcases hn : r.cloudformation_ec2_instance_role with _ | n <;>
      simp [delRoleConfirmStep, hp, hn]

lemma delAllStep_calls (delete_all : Bool) (spec : OpsSpec) (r : Resources) :
    (delAllStep delete_all spec r).calls =
      if delete_all then
        [.deleteLogGroup spec.id, .deleteObjects r.s3_bucket,
         .deleteBucket r.s3_bucket] else [] := by
  unfold delAllStep; split_ifs <;> rfl

lemma runSteps_mono :
    ∀ fs : List (Resources → StepR),
      (∀ f ∈ fs, ∀ r, Preserved r (f r).res) →
      ∀ s : StepR, Preserved s.res (runSteps s fs).res := by
  intro fs
  induction fs with
  | nil => intro _ s; exact Preserved.rfl _
  | cons f fs ih =>
    intro h s
    unfold runSteps
    split_ifs with hgo
    · exact Preserved.trans (h f (List.mem_cons_self f fs) s.res)
        (ih (fun g hg r => h g (List.mem_cons_of_mem f hg) r)
          ⟨(f s.res).res, s.calls ++ (f s.res).calls, (f s.res).go⟩)
    · exact Preserved.rfl _

lemma runSteps_calls_sub (Q : AwsCall → Prop) :
    ∀ fs : List (Resources → StepR),
      (∀ f ∈ fs, ∀ r c, c ∈ (f r).calls → Q c) →
      ∀ s : StepR, (∀ c ∈ s.calls, Q c) →
      ∀ c ∈ (runSteps s fs).calls, Q c := by
  intro fs
  induction fs with
  | nil => intro _ s hs; exact hs
  | cons f fs ih =>
    intro h s hs
    unfold runSteps
    split_ifs with hgo
    · refine ih (fun g hg r c hc => h g (List.mem_cons_of_mem f hg) r c hc)
        _ ?_
      intro c hc
      rcases List.mem_append.mp hc with hc | hc
      · exact hs c hc
      · exact h f (List.mem_cons_self f fs) s.res c hc
    · exact hs

lemma runSteps_not_call (c : AwsCall) (P : Resources → Prop) :
    ∀ fs : List (Resources → StepR),
      (∀ f ∈ fs, ∀ r, P r → P (f r).res) →
      (∀ f ∈ fs, ∀ r, P r → c ∉ (f r).calls) →
      ∀ s : StepR, P s.res → c ∉ s.calls →
      c ∉ (runSteps s fs).calls := by
  intro fs
  induction fs with
  | nil => intro _ _ s _ hs; exact hs
  | cons f fs ih =>
    intro hpres hno s hP hs
    unfold runSteps
    split_ifs with hgo
    · refine ih (fun g hg r hr => hpres g (List.mem_cons_of_mem f hg) r hr)
        (fun g hg r hr => hno g (List.mem_cons_of_mem f hg) r hr)
        _ (hpres f (List.mem_cons_self f fs) s.res hP) ?_
      intro hc
      rcases List.mem_append.mp hc with hc | hc
      · exact hs hc
      · exact hno f (List.mem_cons_self f fs) s.res hP hc
    · exact hs

end Ops

namespace Ops

lemma apply_steps_mono (env : ApplyEnv) (spec : OpsSpec) :
    ∀ f ∈ [identityStep env, defaultsStep spec, kmsStep env, ec2KeyStep env,
      roleStep env, vpcStep env, asgParamsStep, beaconStep env spec,
      nonBeaconStep env spec], ∀ r, Preserved r (f r).res := by
  intro f hf r
  simp only [List.mem_cons, List.not_mem_nil, or_false] at hf
  rcases hf with rfl | rfl | rfl | rfl | rfl | rfl | rfl | rfl | rfl
  · exact identityStep_mono env r
  · exact defaultsStep_mono spec r
  · exact kmsStep_mono env r
  · exact ec2KeyStep_mono env r
  · exact roleStep_mono env r
  · exact vpcStep_mono env r
  · exact asgParamsStep_mono r
  · exact beaconStep_mono env spec r
  · exact nonBeaconStep_mono env spec r

lemma apply_mono (env : ApplyEnv) (spec : OpsSpec) (r : Resources) :
    Preserved r (execute_apply env spec r).res :=
  runSteps_mono _ (apply_steps_mono env spec) ⟨r, [], true⟩

lemma step_call_guards (env : ApplyEnv) (spec : OpsSpec) :
    ∀ f ∈ [identityStep env, defaultsStep spec, kmsStep env, ec2KeyStep env,
      roleStep env, vpcStep env, asgParamsStep, beaconStep env spec,
      nonBeaconStep env spec], ∀ r' : Resources,
      (AwsCall.createKmsKey ∈ (f r').calls →
        r'.kms_cmk_id = none ∧ r'.kms_cmk_arn = none) ∧
      (AwsCall.createKeyPair ∈ (f r').calls → r'.ec2_key_path = none) ∧
      (AwsCall.createStack .ec2InstanceRole ∈ (f r').calls →
        r'.cloudformation_ec2_instance_profile_arn = none) ∧
      (AwsCall.createStack .vpc ∈ (f r').calls →
        r'.cloudformation_vpc_id = none ∧
        r'.cloudformation_vpc_security_group_id = none ∧
        r'.cloudformation_vpc_public_subnet_ids = none) ∧
      (AwsCall.createStack .asgBeaconNodes ∈ (f r').calls →
        r'.cloudformation_asg_beacon_nodes_logical_id = none) ∧
      (AwsCall.createStack .asgNonBeaconNodes ∈ (f r').calls →
        r'.cloudformation_asg_non_beacon_nodes_logical_id = none) := by
  intro f hf r'
  simp only [List.mem_cons, List.not_mem_nil, or_false] at hf
  rcases hf with rfl | rfl | rfl | rfl | rfl | rfl | rfl | rfl | rfl <;>
    (refine ⟨?_, ?_, ?_, ?_, ?_, ?_⟩ <;>
      (intro hmem
       simp only [identityStep_calls, defaultsStep_calls, kmsStep_calls,
         ec2KeyStep_calls, roleStep_calls, vpcStep_calls, asgParamsStep_calls,
         beaconStep_calls, nonBeaconStep_calls] at hmem
       try split_ifs at hmem
       all_goals simp_all))

lemma apply_gate_field (env : ApplyEnv) (spec : OpsSpec) (r : Resources)
    (c : AwsCall) {α : Type} (getf : Resources → Option α)
    (hcomp : ∀ a b, Preserved a b → optLE (getf a) (getf b))
    (hno : ∀ f ∈ [identityStep env, defaultsStep spec, kmsStep env,
        ec2KeyStep env, roleStep env, vpcStep env, asgParamsStep,
        beaconStep env spec, nonBeaconStep env spec],
      ∀ r' v, getf r' = some v → c ∉ (f r').calls)
    (hmem : c ∈ (execute_apply env spec r).calls) : getf r = none := by
  by_cases h : getf r = none
  · exact h
  · exfalso
    obtain ⟨v, hv⟩ : ∃ v, getf r = some v := by
      cases hg : getf r
      · exact absurd hg h
      · exact ⟨_, rfl⟩
    unfold execute_apply at hmem
    exact absurd hmem (runSteps_not_call c (fun r' => getf r' = some v) _
      (fun f hf r' hPr =>
        optLE_some (hcomp _ _ (apply_steps_mono env spec f hf r')) hPr)
      (fun f hf r' hPr => hno f hf r' v hPr) ⟨r, [], true⟩ hv (by simp))

lemma apply_kms_gate (env : ApplyEnv) (spec : OpsSpec) (r : Resources) :
    AwsCall.createKmsKey ∈ (execute_apply env spec r).calls →
      r.kms_cmk_id = none ∧ r.kms_cmk_arn = none := by
  intro hmem
  constructor
  · refine apply_gate_field env spec r _ (fun x => x.kms_cmk_id)
      (fun a b h => h.2.1) ?_ hmem
    intro f hf r' v hP hmem'
    have hg := ((step_call_guards env spec f hf r').1 hmem').1
    simp_all
  · refine apply_gate_field env spec r _ (fun x => x.kms_cmk_arn)
      (fun a b h => h.2.2.1) ?_ hmem
    intro f hf r' v hP hmem'
    have hg := ((step_call_guards env spec f hf r').1 hmem').2
    simp_all

lemma apply_keypair_gate (env : ApplyEnv) (spec : OpsSpec) (r : Resources) :
    AwsCall.createKeyPair ∈ (execute_apply env spec r).calls →
      r.ec2_key_path = none := by
  intro hmem
  refine apply_gate_field env spec r _ (fun x => x.ec2_key_path)
    (fun a b h => h.2.2.2.2.1) ?_ hmem
  intro f hf r' v hP hmem'
  have hg := (step_call_guards env spec f hf r').2.1 hmem'
  simp_all

lemma apply_role_gate (env : ApplyEnv) (spec : OpsSpec) (r : Resources) :
    AwsCall.createStack .ec2InstanceRole ∈ (execute_apply env spec r).calls →
      r.cloudformation_ec2_instance_profile_arn = none := by
  intro hmem
  refine apply_gate_field env spec r _
    (fun x => x.cloudformation_ec2_instance_profile_arn)
    (fun a b h => h.2.2.2.2.2.2.1) ?_ hmem
  intro f hf r' v hP hmem'
  have hg := (step_call_guards env spec f hf r').2.2.1 hmem'
  simp_all

lemma apply_vpc_gate (env : ApplyEnv) (spec : OpsSpec) (r : Resources) :
    AwsCall.createStack .vpc ∈ (execute_apply env spec r).calls →
      r.cloudformation_vpc_id = none ∧
      r.cloudformation_vpc_security_group_id = none ∧
      r.cloudformation_vpc_public_subnet_ids = none := by
  intro hmem
  refine ⟨?_, ?_, ?_⟩
  · refine apply_gate_field env spec r _ (fun x => x.cloudformation_vpc_id)
      (fun a b h => h.2.2.2.2.2.2.2.2.1) ?_ hmem
    intro f hf r' v hP hmem'
    have hg := ((step_call_guards env spec f hf r').2.2.2.1 hmem').1
    simp_all
  · refine apply_gate_field env spec r _
      (fun x => x.cloudformation_vpc_security_group_id)
      (fun a b h => h.2.2.2.2.2.2.2.2.2.1) ?_ hmem
    intro f hf r' v hP hmem'
    have hg := ((step_call_guards env spec f hf r').2.2.2.1 hmem').2.1
    simp_all
  · refine apply_gate_field env spec r _
      (fun x => x.cloudformation_vpc_public_subnet_ids)
      (fun a b h => h.2.2.2.2.2.2.2.2.2.2.1) ?_ hmem
    intro f hf r' v hP hmem'
    have hg := ((step_call_guards env spec f hf r').2.2.2.1 hmem').2.2
    simp_all

lemma apply_beacon_gate (env : ApplyEnv) (spec : OpsSpec) (r : Resources) :
    AwsCall.createStack .asgBeaconNodes ∈ (execute_apply env spec r).calls →
      r.cloudformation_asg_beacon_nodes_logical_id = none := by
  intro hmem
  refine apply_gate_field env spec r _
    (fun x => x.cloudformation_asg_beacon_nodes_logical_id)
    (fun a b h => h.2.2.2.2.2.2.2.2.2.2.2.2.1) ?_ hmem
  intro f hf r' v hP hmem'
  have hg := (step_call_guards env spec f hf r').2.2.2.2.1 hmem'
  simp_all

lemma apply_nonbeacon_gate (env : ApplyEnv) (spec : OpsSpec) (r : Resources) :
    AwsCall.createStack .asgNonBeaconNodes ∈
        (execute_apply env spec r).calls →
      r.cloudformation_asg_non_beacon_nodes_logical_id = none := by
  intro hmem
  refine apply_gate_field env spec r _
    (fun x => x.cloudformation_asg_non_beacon_nodes_logical_id)
    (fun a b h => h.2.2.2.2.2.2.2.2.2.2.2.2.2.2) ?_ hmem
  intro f hf r' v hP hmem'
  have hg := (step_call_guards env spec f hf r').2.2.2.2.2 hmem'
  simp_all

end Ops

/-- C1: in execute_apply every provisioning step is gated on its
aws_resources field being unset — the KMS-key creation requires both
kms_cmk_id and kms_cmk_arn unset, the EC2 key-pair creation requires
ec2_key_path unset, the instance-role stack creation requires the profile
arn unset, the VPC stack creation requires the VPC id, security-group id
and subnet ids unset, and each node-group stack creation requires its ASG
logical id unset — and the run is monotone on the provisioning fields: any
field already Some keeps its exact value in the resulting record.  Because
this holds for an arbitrary input record, it applies to every later
invocation as well: re-running apply on a partially populated record
performs creation calls only for the still-unset fields. -/
theorem claim_c1_resources_monotone (env : Ops.ApplyEnv) (spec : Ops.OpsSpec)
    (r : Ops.Resources) :
    (Ops.AwsCall.createKmsKey ∈ (Ops.execute_apply env spec r).calls →
      r.kms_cmk_id = none ∧ r.kms_cmk_arn = none) ∧
    (Ops.AwsCall.createKeyPair ∈ (Ops.execute_apply env spec r).calls →
      r.ec2_key_path = none) ∧
    (Ops.AwsCall.createStack .ec2InstanceRole ∈
        (Ops.execute_apply env spec r).calls →
      r.cloudformation_ec2_instance_profile_arn = none) ∧
    (Ops.AwsCall.createStack .vpc ∈ (Ops.execute_apply env spec r).calls →
      r.cloudformation_vpc_id = none ∧
      r.cloudformation_vpc_security_group_id = none ∧
      r.cloudformation_vpc_public_subnet_ids = none) ∧
    (Ops.AwsCall.createStack .asgBeaconNodes ∈
        (Ops.execute_apply env spec r).calls →
      r.cloudformation_asg_beacon_nodes_logical_id = none) ∧
    (Ops.AwsCall.createStack .asgNonBeaconNodes ∈
        (Ops.execute_apply env spec r).calls →
      r.cloudformation_asg_non_beacon_nodes_logical_id = none) ∧
    Ops.Preserved r (Ops.execute_apply env spec r).res :=
  ⟨Ops.apply_kms_gate env spec r, Ops.apply_keypair_gate env spec r,
   Ops.apply_role_gate env spec r, Ops.apply_vpc_gate env spec r,
   Ops.apply_beacon_gate env spec r, Ops.apply_nonbeacon_gate env spec r,
   Ops.apply_mono env spec r⟩

namespace Ops

lemma waitSecs_eq_min (d : Nat) : waitSecs d = min (300 + 60 * d) 3000 := by
  unfold waitSecs MAX_WAIT_SECONDS
  dsimp only
  split_ifs <;> omega

lemma apply_poll_budget (env : ApplyEnv) (spec : OpsSpec) (r : Resources) :
    ∀ c ∈ (execute_apply env spec r).calls,
      (∀ st t i, c = AwsCall.pollStack .asgBeaconNodes st t i →
        t = waitSecs (spec.machine.beacon_nodes.getD 0)) ∧
      (∀ st t i, c = AwsCall.pollStack .asgNonBeaconNodes st t i →
        t = waitSecs spec.machine.non_beacon_nodes) := by
  intro c hc
  unfold execute_apply at hc
  refine runSteps_calls_sub (fun c =>
      (∀ st t i, c = AwsCall.pollStack .asgBeaconNodes st t i →
        t = waitSecs (spec.machine.beacon_nodes.getD 0)) ∧
      (∀ st t i, c = AwsCall.pollStack .asgNonBeaconNodes st t i →
        t = waitSecs spec.machine.non_beacon_nodes))
    _ ?_ _ (by simp) c hc
  intro f hf r' c' hc'
  simp only [List.mem_cons, List.not_mem_nil, or_false] at hf
  rcases hf with rfl | rfl | rfl | rfl | rfl | rfl | rfl | rfl | rfl <;>
    (simp only [identityStep_calls, defaultsStep_calls, kmsStep_calls,
       ec2KeyStep_calls, roleStep_calls, vpcStep_calls, asgParamsStep_calls,
       beaconStep_calls, nonBeaconStep_calls] at hc'
     try split_ifs at hc'
     all_goals simp at hc'
     all_goals (try rcases hc' with hc' | hc')
     all_goals (try subst hc')
     all_goals exact ⟨by intro st t i hceq <;> simp_all,
       by intro st t i hceq <;> simp_all⟩)

lemma delete_steps_list_res (denv : DeleteEnv) (spec : OpsSpec) (flag : Bool) :
    ∀ f ∈ [delIdentityStep denv, delKeyStep, delKmsStep, delRoleTriggerStep,
      delNonBeaconTriggerStep, delBeaconTriggerStep spec,
      delNonBeaconConfirmStep spec, delBeaconConfirmStep spec, delVpcStep,
      delRoleConfirmStep, delAllStep flag spec], ∀ r : Resources,
      (f r).res = r := by
  intro f hf r
  simp only [List.mem_cons, List.not_mem_nil, or_false] at hf
  rcases hf with rfl|rfl|rfl|rfl|rfl|rfl|rfl|rfl|rfl|rfl|rfl
  · exact delIdentityStep_res denv r
  · exact delKeyStep_res r
  · exact delKmsStep_res r
  · exact delRoleTriggerStep_res r
  · exact delNonBeaconTriggerStep_res r
  · exact delBeaconTriggerStep_res spec r
  · exact delNonBeaconConfirmStep_res spec r
  · exact delBeaconConfirmStep_res spec r
  · exact delVpcStep_res r
  · exact delRoleConfirmStep_res r
  · exact delAllStep_res flag spec r

lemma delete_poll_budget (denv : DeleteEnv) (spec : OpsSpec) (flag : Bool)
    (r : Resources) :
    ∀ c ∈ (execute_delete denv spec flag r).calls,
      (∀ st t i, c = AwsCall.pollStack .asgBeaconNodes st t i →
        t = waitSecs (spec.machine.beacon_nodes.getD 0)) ∧
      (∀ st t i, c = AwsCall.pollStack .asgNonBeaconNodes st t i →
        t = waitSecs spec.machine.non_beacon_nodes) := by
  intro c hc
  unfold execute_delete at hc
  refine runSteps_calls_sub (fun c =>
      (∀ st t i, c = AwsCall.pollStack .asgBeaconNodes st t i →
        t = waitSecs (spec.machine.beacon_nodes.getD 0)) ∧
      (∀ st t i, c = AwsCall.pollStack .asgNonBeaconNodes st t i →
        t = waitSecs spec.machine.non_beacon_nodes))
    _ ?_ _ (by simp) c hc
  intro f hf r' c' hc'
  simp only [List.mem_cons, List.not_mem_nil, or_false] at hf
  rcases hf with rfl|rfl|rfl|rfl|rfl|rfl|rfl|rfl|rfl|rfl|rfl <;>
    (simp only [delIdentityStep_calls, delKeyStep_calls, delKmsStep_calls,
       delRoleTriggerStep_calls, delNonBeaconTriggerStep_calls,
       delBeaconTriggerStep_calls, delNonBeaconConfirmStep_calls,
       delBeaconConfirmStep_calls, delVpcStep_calls, delRoleConfirmStep_calls,
       delAllStep_calls] at hc'
     try split_ifs at hc'
     all_goals simp at hc'
     all_goals (try rcases hc' with hc' | hc')
     all_goals (try rcases hc' with hc' | hc')
     all_goals (try subst hc')
     all_goals exact ⟨by intro st t i hceq <;> simp_all,
       by intro st t i hceq <;> simp_all⟩)

lemma delete_no_deleteall_calls (denv : DeleteEnv) (spec : OpsSpec)
    (r : Resources) :
    ∀ c ∈ (execute_delete denv spec false r).calls,
      (∀ n, c ≠ AwsCall.deleteLogGroup n) ∧
      (∀ b, c ≠ AwsCall.deleteObjects b) ∧
      (∀ b, c ≠ AwsCall.deleteBucket b) := by
  intro c hc
  unfold execute_delete at hc
  refine runSteps_calls_sub (fun c =>
      (∀ n, c ≠ AwsCall.deleteLogGroup n) ∧
      (∀ b, c ≠ AwsCall.deleteObjects b) ∧
      (∀ b, c ≠ AwsCall.deleteBucket b))
    _ ?_ _ (by simp) c hc
  intro f hf r' c' hc'
  simp only [List.mem_cons, List.not_mem_nil, or_false] at hf
  rcases hf with rfl|rfl|rfl|rfl|rfl|rfl|rfl|rfl|rfl|rfl|rfl <;>
    (simp only [delIdentityStep_calls, delKeyStep_calls, delKmsStep_calls,
       delRoleTriggerStep_calls, delNonBeaconTriggerStep_calls,
       delBeaconTriggerStep_calls, delNonBeaconConfirmStep_calls,
       delBeaconConfirmStep_calls, delVpcStep_calls, delRoleConfirmStep_calls,
       delAllStep_calls] at hc'
     try split_ifs at hc'
     all_goals simp at hc'
     all_goals (try rcases hc' with hc' | hc')
     all_goals (try rcases hc' with hc' | hc')
     all_goals (try subst hc')
     all_goals exact ⟨by intro n h <;> simp_all,
       by intro b h <;> simp_all, by intro b h <;> simp_all⟩)

lemma delete_backup_safe (denv : DeleteEnv) (spec : OpsSpec) (flag : Bool)
    (r : Resources) (b : String) (hne : b ≠ r.s3_bucket) :
    AwsCall.deleteObjects b ∉ (execute_delete denv spec flag r).calls ∧
      AwsCall.deleteBucket b ∉ (execute_delete denv spec flag r).calls := by
  constructor <;>
    (unfold execute_delete
     refine runSteps_not_call _ (fun r' => r'.s3_bucket = r.s3_bucket) _
       ?_ ?_ ⟨r, [], true⟩ rfl (by simp)
     · intro f hf r' hr
       rw [delete_steps_list_res denv spec flag f hf r']
       exact hr
     · intro f hf r' hr hmem
       simp only [List.mem_cons, List.not_mem_nil, or_false] at hf
       rcases hf with rfl|rfl|rfl|rfl|rfl|rfl|rfl|rfl|rfl|rfl|rfl <;>
         (simp only [delIdentityStep_calls, delKeyStep_calls,
            delKmsStep_calls, delRoleTriggerStep_calls,
            delNonBeaconTriggerStep_calls, delBeaconTriggerStep_calls,
            delNonBeaconConfirmStep_calls, delBeaconConfirmStep_calls,
            delVpcStep_calls, delRoleConfirmStep_calls,
            delAllStep_calls] at hmem
          try split_ifs at hmem
          all_goals simp_all))

end Ops

/-- C7: MAX_WAIT_SECONDS is the 50-minute (3000-second) cap, waitSecs is
exactly min(300 + 60 * desired, 3000), and in both execute_apply (create
polling) and execute_delete (delete polling) every poll of the beacon /
non-beacon ASG stack is issued with that timeout computed from the
corresponding desired node count of machine. -/
theorem claim_c7_poll_timeout_budget (env : Ops.ApplyEnv)
    (denv : Ops.DeleteEnv) (spec : Ops.OpsSpec) (flag : Bool)
    (r : Ops.Resources) :
    Ops.MAX_WAIT_SECONDS = 3000 ∧
    (∀ d, Ops.waitSecs d = min (300 + 60 * d) 3000) ∧
    (∀ st t i, Ops.AwsCall.pollStack .asgBeaconNodes st t i ∈
        (Ops.execute_apply env spec r).calls →
      t = min (300 + 60 * spec.machine.beacon_nodes.getD 0) 3000) ∧
    (∀ st t i, Ops.AwsCall.pollStack .asgNonBeaconNodes st t i ∈
        (Ops.execute_apply env spec r).calls →
      t = min (300 + 60 * spec.machine.non_beacon_nodes) 3000) ∧
    (∀ st t i, Ops.AwsCall.pollStack .asgBeaconNodes st t i ∈
        (Ops.execute_delete denv spec flag r).calls →
      t = min (300 + 60 * spec.machine.beacon_nodes.getD 0) 3000) ∧
    (∀ st t i, Ops.AwsCall.pollStack .asgNonBeaconNodes st t i ∈
        (Ops.execute_delete denv spec flag r).calls →
      t = min (300 + 60 * spec.machine.non_beacon_nodes) 3000) := by
  refine ⟨rfl, Ops.waitSecs_eq_min, ?_, ?_, ?_, ?_⟩
  · intro st t i hmem
    have h := (Ops.apply_poll_budget env spec r _ hmem).1 st t i rfl
    rw [h, Ops.waitSecs_eq_min]
  · intro st t i hmem
    have h := (Ops.apply_poll_budget env spec r _ hmem).2 st t i rfl
    rw [h, Ops.waitSecs_eq_min]
  · intro st t i hmem
    have h := (Ops.delete_poll_budget denv spec flag r _ hmem).1 st t i rfl
    rw [h, Ops.waitSecs_eq_min]
  · intro st t i hmem
    have h := (Ops.delete_poll_budget denv spec flag r _ hmem).2 st t i rfl
    rw [h, Ops.waitSecs_eq_min]

/-- C8: execute_delete performs the cloudwatch log-group deletion, the state
bucket object deletion and the state bucket deletion only when the
delete-all flag is set (with the flag unset none of those calls appears in
the trace), and — flag set or not — it never issues a delete against the
designated backup bucket s3_bucket_db_backup or its objects (the backup
bucket being, as constructed, distinct from the state bucket). -/
theorem claim_c8_delete_frame (denv : Ops.DeleteEnv) (spec : Ops.OpsSpec)
    (flag : Bool) (r : Ops.Resources) :
    (flag = false →
      (∀ n, Ops.AwsCall.deleteLogGroup n ∉
        (Ops.execute_delete denv spec flag r).calls) ∧
      (∀ b, Ops.AwsCall.deleteObjects b ∉
        (Ops.execute_delete denv spec flag r).calls) ∧
      (∀ b, Ops.AwsCall.deleteBucket b ∉
        (Ops.execute_delete denv spec flag r).calls)) ∧
    (∀ b, r.s3_bucket_db_backup = some b → b ≠ r.s3_bucket →
      Ops.AwsCall.deleteObjects b ∉
          (Ops.execute_delete denv spec flag r).calls ∧
        Ops.AwsCall.deleteBucket b ∉
          (Ops.execute_delete denv spec flag r).calls) := by
  constructor
  · intro hflag
    subst hflag
    refine ⟨?_, ?_, ?_⟩
    · intro n hmem
      exact (Ops.delete_no_deleteall_calls denv spec r _ hmem).1 n rfl
    · intro b hmem
      exact (Ops.delete_no_deleteall_calls denv spec r _ hmem).2.1 b rfl
    · intro b hmem
      exact (Ops.delete_no_deleteall_calls denv spec r _ hmem).2.2 b rfl
  · intro b _ hne
    exact Ops.delete_backup_safe denv spec flag r b hne

namespace Cb58

lemma charValue_digitChar : ∀ v, v < 58 → charValue (digitChar v) = some v := by
  decide

lemma charValue_one : charValue '1' = some 0 := by
  decide

lemma digitChar_ne_one : ∀ v, v < 58 → v ≠ 0 →
    ((digitChar v == '1') = false) := by
  decide

lemma toDigitsFuel_eq_digits (b : Nat) (hb : 2 ≤ b) :
    ∀ fuel n, n ≤ fuel → toDigitsFuel b fuel n = Nat.digits b n := by
  intro fuel
  induction fuel with
  | zero =>
    intro n hn
    have h0 : n = 0 := Nat.le_zero.mp hn
    subst h0
    simp [toDigitsFuel]
  | succ f ih =>
    intro n hn
    cases n with
    | zero => simp [toDigitsFuel]
    | succ m =>
      have hrec : toDigitsFuel b (f + 1) (m + 1) =
          ((m + 1) % b) :: toDigitsFuel b f ((m + 1) / b) := rfl
      rw [hrec, ih ((m + 1) / b)
        (by
          have h2 : (m + 1) / b < m + 1 :=
            Nat.div_lt_self (Nat.succ_pos m) (by omega)
          omega),
        Nat.digits_def' (by omega : 1 < b) (Nat.succ_pos m)]

lemma toDigitsLE_eq_digits (b n : Nat) (hb : 2 ≤ b) :
    toDigitsLE b n = Nat.digits b n :=
  toDigitsFuel_eq_digits b hb n n le_rfl

lemma decodeChars_ones : ∀ k,
    decodeChars (List.replicate k '1') = some (List.replicate k 0) := by
  intro k
  induction k with
  | zero => rfl
  | succ m ih => simp [List.replicate_succ, decodeChars, charValue_one, ih]

lemma decodeChars_map_digitChar : ∀ l, (∀ v ∈ l, v < 58) →
    decodeChars (l.map digitChar) = some l := by
  intro l
  induction l with
  | nil => intro _; rfl
  | cons v vs ih =>
    intro h
    have h1 : v < 58 := h v (List.mem_cons_self v vs)
    simp [decodeChars, charValue_digitChar v h1,
      ih (fun x hx => h x (List.mem_cons_of_mem _ hx))]

lemma decodeChars_append : ∀ l1 l2 r1 r2, decodeChars l1 = some r1 →
    decodeChars l2 = some r2 → decodeChars (l1 ++ l2) = some (r1 ++ r2) := by
  intro l1
  induction l1 with
  | nil =>
    intro l2 r1 r2 h1 h2
    have hr : r1 = [] := by
      simpa [decodeChars] using h1.symm
    subst hr
    simpa using h2
  | cons c cs ih =>
    intro l2 r1 r2 h1 h2
    cases hc : charValue c with
    | none =>
      unfold decodeChars at h1
      rw [hc] at h1
      cases h1
    | some v =>
      cases hcs : decodeChars cs with
      | none =>
        unfold decodeChars at h1
        rw [hc, hcs] at h1
        cases h1
      | some vs =>
        unfold decodeChars at h1
        rw [hc, hcs] at h1
        have hr : r1 = v :: vs := by
          injection h1 with h1
          exact h1.symm
        subst hr
        have hrec := ih l2 vs r2 hcs h2
        show decodeChars (c :: (cs ++ l2)) = some ((v :: vs) ++ r2)
        unfold decodeChars
        rw [hc, hrec]
        rfl

lemma foldl_base58 : ∀ (vals : List Nat) (acc : Nat),
    vals.foldl (fun a v => a * 58 + v) acc =
      acc * 58 ^ vals.length + Nat.ofDigits 58 vals.reverse := by
  intro vals
  induction vals with
  | nil => intro acc; simp [Nat.ofDigits]
  | cons v vs ih =>
    intro acc
    simp only [List.foldl_cons, List.reverse_cons, List.length_cons]
    rw [ih (acc * 58 + v), Nat.ofDigits_append]
    simp only [Nat.ofDigits_cons, Nat.ofDigits_nil, List.length_reverse]
    ring

lemma base58Value_eq_ofDigits (vals : List Nat) :
    base58Value vals = Nat.ofDigits 58 vals.reverse := by
  unfold base58Value
  rw [foldl_base58 vals 0]
  ring

lemma ofDigits_replicate_zero : ∀ (b k : Nat),
    Nat.ofDigits b (List.replicate k 0) = 0 := by
  intro b k
  induction k with
  | zero => simp [Nat.ofDigits]
  | succ m ih => simp [List.replicate_succ, Nat.ofDigits_cons, ih]

lemma takeWhile_append_all {α : Type} (p : α → Bool) :
    ∀ (l1 l2 : List α), (∀ x ∈ l1, p x = true) →
      (l1 ++ l2).takeWhile p = l1 ++ l2.takeWhile p := by
  intro l1
  induction l1 with
  | nil => intro l2 _; rfl
  | cons x xs ih =>
    intro l2 h
    rw [List.cons_append, List.takeWhile_cons,
      if_pos (h x (List.mem_cons_self x xs)),
      ih l2 (fun y hy => h y (List.mem_cons_of_mem _ hy)), List.cons_append]

lemma takeWhile_zeros_replicate : ∀ l : List Nat,
    l.takeWhile (fun x => x == 0) =
      List.replicate (l.takeWhile (fun x => x == 0)).length 0 := by
  intro l
  induction l with
  | nil => rfl
  | cons x xs ih =>
    by_cases hx : x = 0
    · subst hx
      rw [List.takeWhile_cons]
      simp only [beq_self_eq_true, if_true, List.length_cons,
        List.replicate_succ]
      exact congrArg (fun l => 0 :: l) ih
    · rw [List.takeWhile_cons, if_neg (by simpa using hx)]
      rfl

lemma dropWhile_head_false {α : Type} (p : α → Bool) :
    ∀ (l : List α) (x : α) (xs : List α),
      l.dropWhile p = x :: xs → p x = false := by
  intro l
  induction l with
  | nil => intro x xs h; cases h
  | cons y ys ih =>
    intro x xs h
    rw [List.dropWhile_cons] at h
    split_ifs at h with hy
    · exact ih x xs h
    · cases h
      simpa using hy

lemma digits_beNat (d : List Nat) (hd : ∀ x ∈ d, x < 256) :
    Nat.digits 256 (beNat d) =
      (d.dropWhile (fun x => x == 0)).reverse := by
  have hsplit : d.takeWhile (fun x => x == 0) ++
      d.dropWhile (fun x => x == 0) = d :=
    List.takeWhile_append_dropWhile _ _
  have hben : beNat d =
      Nat.ofDigits 256 (d.dropWhile (fun x => x == 0)).reverse := by
    unfold beNat
    conv_lhs => rw [← hsplit]
    rw [List.reverse_append, Nat.ofDigits_append,
      takeWhile_zeros_replicate d, List.reverse_replicate,
      ofDigits_replicate_zero]
    simp
  rw [hben]
  cases hrest : d.dropWhile (fun x => x == 0) with
  | nil => simp [Nat.ofDigits]
  | cons y ys =>
    have hne : (y :: ys).reverse ≠ [] := by simp
    refine Nat.digits_ofDigits 256 (by omega) _ ?_ ?_
    · intro l hl
      rw [List.mem_reverse] at hl
      refine hd l ?_
      rw [← hsplit]
      exact List.mem_append_right _ (hrest ▸ hl)
    · intro h
      have h1 : (y :: ys).reverse.getLast? = some y := by
        rw [List.getLast?_reverse]
        rfl
      have h2 : (y :: ys).reverse.getLast? =
          some ((y :: ys).reverse.getLast h) :=
        List.getLast?_eq_getLast _ h
      have h3 : (y :: ys).reverse.getLast h = y := by
        rw [h2] at h1
        injection h1
      rw [h3]
      have h4 := dropWhile_head_false (fun x => x == 0) d y ys hrest
      simpa using h4

lemma encode_decodeChars (d : List Nat) :
    decodeChars (encode_slice d) =
      some (List.replicate (d.takeWhile (fun x => x == 0)).length 0 ++
        (toDigitsLE 58 (beNat d)).reverse) := by
  unfold encode_slice
  refine decodeChars_append _ _ _ _ (decodeChars_ones _) ?_
  apply decodeChars_map_digitChar
  intro v hv
  rw [List.mem_reverse, toDigitsLE_eq_digits 58 _ (by omega)] at hv
  exact Nat.digits_lt_base (by omega) hv

lemma encode_takeWhile_ones (d : List Nat) :
    ((encode_slice d).takeWhile (fun c => c == '1')).length =
      (d.takeWhile (fun x => x == 0)).length := by
  unfold encode_slice
  rw [takeWhile_append_all _ _ _ (by
    intro x hx
    rw [List.mem_replicate] at hx
    simp [hx.2])]
  rw [List.length_append, List.length_replicate]
  have hzero : ((toDigitsLE 58 (beNat d)).reverse.map
      digitChar).takeWhile (fun c => c == '1') = [] := by
    rw [toDigitsLE_eq_digits 58 _ (by omega)]
    cases hds : (Nat.digits 58 (beNat d)).reverse with
    | nil => rfl
    | cons h t =>
      have hne : Nat.digits 58 (beNat d) ≠ [] := by
        intro hcon
        rw [hcon] at hds
        cases hds
      have hn0 : beNat d ≠ 0 := by
        intro hcon
        rw [hcon] at hne
        simp at hne
      have hmem : h ∈ Nat.digits 58 (beNat d) := by
        rw [← List.mem_reverse, hds]
        exact List.mem_cons_self h t
      have hb : h < 58 := Nat.digits_lt_base (by omega) hmem
      have hlast := Nat.getLast_digit_ne_zero 58 hn0
      have h1 : (Nat.digits 58 (beNat d)).getLast? = some h := by
        rw [← List.head?_reverse, hds]
        rfl
      have h2 : (Nat.digits 58 (beNat d)).getLast? =
          some ((Nat.digits 58 (beNat d)).getLast
            (Nat.digits_ne_nil_iff_ne_zero.mpr hn0)) :=
        List.getLast?_eq_getLast _ (Nat.digits_ne_nil_iff_ne_zero.mpr hn0)
      have h3 : h ≠ 0 := by
        rw [h2] at h1
        injection h1 with h1
        exact h1 ▸ hlast
      rw [List.map_cons, List.takeWhile_cons,
        if_neg (by simp [digitChar_ne_one h hb h3])]
  rw [hzero]
  simp

lemma base58_round (d : List Nat) (hd : ∀ x ∈ d, x < 256) :
    base58_from (encode_slice d) = .ok d := by
  unfold base58_from
  rw [encode_decodeChars d]
  dsimp only
  rw [show ((encode_slice d).takeWhile (fun c => c == '1')).length =
    (d.takeWhile (fun x => x == 0)).length from encode_takeWhile_ones d]
  have hval : base58Value
      (List.replicate (d.takeWhile (fun x => x == 0)).length 0 ++
        (toDigitsLE 58 (beNat d)).reverse) = beNat d := by
    rw [base58Value_eq_ofDigits, List.reverse_append, List.reverse_reverse,
      List.reverse_replicate, Nat.ofDigits_append,
      toDigitsLE_eq_digits 58 _ (by omega), Nat.ofDigits_digits,
      ofDigits_replicate_zero]
    simp
  rw [hval]
  have hbytes : natToBytesBE (beNat d) = d.dropWhile (fun x => x == 0) := by
    unfold natToBytesBE
    rw [toDigitsLE_eq_digits 256 _ (by omega), digits_beNat d hd,
      List.reverse_reverse]
  rw [hbytes]
  have hfinal : List.replicate (d.takeWhile (fun x => x == 0)).length 0 ++
      d.dropWhile (fun x => x == 0) = d := by
    rw [← takeWhile_zeros_replicate d]
    exact List.takeWhile_append_dropWhile _ _
  rw [hfinal]

end Cb58

/-- C9: CB58 round trip — for every byte vector d and any 32-byte digest
function (the code uses the SHA-256 digest computed by library code outside
src/), decoding the encoding of d returns exactly d: encoding appends the
last 4 bytes of the digest of d before base58-encoding, and decoding
base58-decodes, verifies that trailing checksum against the recomputed
digest, and returns the original bytes. -/
theorem claim_c9_cb58_round_trip (sha : List Nat → List Nat)
    (d : List Nat) (hlen : ∀ x, (sha x).length = 32)
    (hbytes : ∀ x, ∀ y ∈ sha x, y < 256) (hd : ∀ y ∈ d, y < 256) :
    Cb58.decode_cb58_with_checksum sha
      (Cb58.encode_cb58_with_checksum sha d) = .ok d := by
  unfold Cb58.encode_cb58_with_checksum Cb58.decode_cb58_with_checksum
  have hcheck : ∀ y ∈ (sha d).drop ((sha d).length - Cb58.CHECKSUM_LENGTH),
      y < 256 := by
    intro y hy
    exact hbytes d y (List.mem_of_mem_drop hy)
  rw [Cb58.base58_round _ (by
    intro y hy
    rcases List.mem_append.mp hy with hy | hy
    · exact hd y hy
    · exact hcheck y hy)]
  dsimp only
  have hlen4 : ((sha d).drop ((sha d).length - Cb58.CHECKSUM_LENGTH)).length
      = 4 := by
    rw [List.length_drop, hlen d]
    rfl
  have hdlen : (d ++ (sha d).drop ((sha d).length -
      Cb58.CHECKSUM_LENGTH)).length = d.length + 4 := by
    rw [List.length_append, hlen4]
  rw [if_neg (by rw [hdlen]; unfold Cb58.CHECKSUM_LENGTH; omega)]
  have htake : (d ++ (sha d).drop ((sha d).length -
      Cb58.CHECKSUM_LENGTH)).take ((d ++ (sha d).drop ((sha d).length -
        Cb58.CHECKSUM_LENGTH)).length - Cb58.CHECKSUM_LENGTH) = d := by
    rw [hdlen]
    rw [show d.length + 4 - Cb58.CHECKSUM_LENGTH = d.length from rfl]
    exact List.take_left d _
  have hdrop : (d ++ (sha d).drop ((sha d).length -
      Cb58.CHECKSUM_LENGTH)).drop ((d ++ (sha d).drop ((sha d).length -
        Cb58.CHECKSUM_LENGTH)).length - Cb58.CHECKSUM_LENGTH) =
      (sha d).drop ((sha d).length - Cb58.CHECKSUM_LENGTH) := by
    rw [hdlen]
    rw [show d.length + 4 - Cb58.CHECKSUM_LENGTH = d.length from rfl]
    exact List.drop_left d _
  simp only [htake, hdrop]
  rw [if_neg (by rw [hlen d]; unfold Cb58.CHECKSUM_LENGTH; omega)]
  simp

/-- C9 witness: the round trip evaluated on the concrete byte vector
[0, 1, 255] with a concrete 32-byte digest function. -/
theorem claim_c9_cb58_round_trip_witness :
    Cb58.decode_cb58_with_checksum Cb58.shaW
      (Cb58.encode_cb58_with_checksum Cb58.shaW [0, 1, 255]) =
      .ok [0, 1, 255] :=
  claim_c9_cb58_round_trip Cb58.shaW [0, 1, 255]
    (fun x => by simp [Cb58.shaW])
    (fun x y hy => by
      rw [Cb58.shaW] at hy
      simp only [List.mem_replicate] at hy
      omega)
    (by decide)

/-- C10: decode_cb58_with_checksum is not total over its error type — on the
empty input string, which base58-decodes to zero bytes (an Ok of the
underlying decoder), the unguarded subtraction decoded_length -
CHECKSUM_LENGTH underflows and the slice indexing panics instead of
returning an Err, whatever digest function is plugged in. -/
theorem claim_c10_decode_short_input_panics (sha : List Nat → List Nat) :
    Cb58.base58_from ([] : List Char) = .ok [] ∧
      Cb58.decode_cb58_with_checksum sha [] = .panicked ∧
      Cb58.decode_cb58_with_checksum sha [] ≠
        .err "failed to decode base58" := by
  refine ⟨rfl, rfl, ?_⟩
  intro h
  cases h
